import Mathlib

/-!
Verification development for the cesoir-city venue seed tool
(reconciliation and resilient-fetch subsystem).

The TypeScript sources are shallowly embedded:
 - JS strings are Lean `String`s (lists of characters); the Unicode
   NFD-decompose-and-strip-diacritics step is modelled as a per-character
   fold over the precomposed Latin letters that occur in the data, and the
   `\p{Letter}\p{Number}` character class is modelled by `Char.isAlphanum`
   on the folded alphabet.
 - JS numbers are modelled as `ℚ` (with a distinguished NaN marker where
   the code tests `Number.isNaN`); `Math.round` is `⌊x + 1/2⌋`, which is
   the rounding JS performs on halves.
 - `async` store and network calls are modelled by explicit state passing
   and oracles; exceptions by `Except`.
-/

namespace Cesoir

/-! ## Character-level model of the JS string pipeline -/

/-- Whitespace, as matched by `\s` and by `String.prototype.trim`. -/
def isWsChar (c : Char) : Bool :=
  c = ' ' ∨ c = '\t' ∨ c = '\n' ∨ c = '\r'

/-- Model of the NFD-decompose-then-strip-diacritics step
(`.normalize('NFD').replace(/\p{Diacritic}/gu, '')`) as a per-character
map over the precomposed Latin letters used in the data. -/
def stripDiacritic (c : Char) : Char :=
  match c with
  | 'à' | 'â' | 'ä' | 'á' | 'ã' => 'a'
  | 'é' | 'è' | 'ê' | 'ë' => 'e'
  | 'î' | 'ï' | 'í' => 'i'
  | 'ô' | 'ö' | 'ó' | 'õ' => 'o'
  | 'ù' | 'û' | 'ü' | 'ú' => 'u'
  | 'ç' => 'c'
  | 'ÿ' => 'y'
  | 'ñ' => 'n'
  | 'À' | 'Â' | 'Ä' | 'Á' | 'Ã' => 'A'
  | 'É' | 'È' | 'Ê' | 'Ë' => 'E'
  | 'Î' | 'Ï' | 'Í' => 'I'
  | 'Ô' | 'Ö' | 'Ó' | 'Õ' => 'O'
  | 'Ù' | 'Û' | 'Ü' | 'Ú' => 'U'
  | 'Ç' => 'C'
  | 'Ñ' => 'N'
  | _ => c

/-- Strip diacritics then lowercase one character
(the `.normalize('NFD').replace(...).toLowerCase()` part of the pipeline). -/
def foldChar (c : Char) : Char :=
  (stripDiacritic c).toLower

/-- The `\p{Letter}\p{Number}` class on the folded alphabet. -/
def isWordChar (c : Char) : Bool :=
  c.isAlphanum

/-- Single left-to-right pass of `.replace(/[^\p{Letter}\p{Number}]+/gu, ' ')`:
`inRun` records whether the previous character belonged to a non-word run,
so each maximal run of non-word characters emits exactly one space. -/
def collapseNonWordAux (inRun : Bool) : List Char → List Char
  | [] => []
  | c :: cs =>
    if isWordChar c then c :: collapseNonWordAux false cs
    else if inRun then collapseNonWordAux true cs
    else ' ' :: collapseNonWordAux true cs

/-- Model of `.replace(/[^\p{Letter}\p{Number}]+/gu, ' ')`: every maximal
run of non-word characters becomes a single space. -/
def collapseNonWord (l : List Char) : List Char :=
  collapseNonWordAux false l

/-- Single pass of `.replace(/\s+/g, ' ')`, analogous to
`collapseNonWordAux`. -/
def collapseWsAux (inRun : Bool) : List Char → List Char
  | [] => []
  | c :: cs =>
    if isWsChar c then
      if inRun then collapseWsAux true cs else ' ' :: collapseWsAux true cs
    else c :: collapseWsAux false cs

/-- Model of `.replace(/\s+/g, ' ')`: every maximal run of whitespace
becomes a single space. -/
def collapseWs (l : List Char) : List Char :=
  collapseWsAux false l

/-- Model of `String.prototype.trim`. -/
def jsTrim (l : List Char) : List Char :=
  ((l.dropWhile isWsChar).reverse.dropWhile isWsChar).reverse

/-- `trim` at the `String` level. -/
def jsTrimStr (s : String) : String :=
  ⟨jsTrim s.data⟩

/-- `toLowerCase` at the `String` level (ASCII case fold, matching the
post-diacritic-fold alphabet). -/
def jsLowerStr (s : String) : String :=
  ⟨s.data.map Char.toLower⟩

/-- Case-insensitive equality: the semantics of a Postgres `ilike` match
against a pattern that contains no wildcard characters. -/
def ciEq (a b : String) : Bool :=
  jsLowerStr a = jsLowerStr b

/-- JS truthiness of an optional string (`null`/`undefined`/`''` are falsy). -/
def jsTruthy : Option String → Bool
  | none => false
  | some s => s ≠ ""

/-! ## `src/lib/normalize.ts` -/

/-- `normalizeString`: strip diacritics, lowercase, collapse non-word runs
to a single space, collapse whitespace, trim. -/
def normalizeString (input : String) : String :=
  ⟨jsTrim (collapseWs (collapseNonWord (input.data.map foldChar)))⟩

/-- `normalizeAddress` is `normalizeString`. -/
def normalizeAddress (input : String) : String :=
  normalizeString input

/-- Floor of a rational (for a positive denominator, `Int./` is Euclidean
division, so this is the mathematical floor). -/
def ratFloor (q : ℚ) : ℤ :=
  q.num / (q.den : ℤ)

/-- `Math.round`: round half toward positive infinity, i.e. `⌊x + 1/2⌋`. -/
def jsMathRound (q : ℚ) : ℤ :=
  ratFloor (q + 1/2)

/-- `roundCoord(value, precision = 8)`: `Math.round(value * factor) / factor`. -/
def roundCoord (value : ℚ) (precision : ℕ := 8) : ℚ :=
  let factor : ℚ := 10 ^ precision
  (jsMathRound (value * factor) : ℚ) / factor

/-- `Math.min(x, y, z)`. -/
def min3 (x y z : ℕ) : ℕ :=
  Nat.min (Nat.min x y) z

/-- The edit-distance recurrence computed by the `levenshtein` matrix:
`matrix[i][j]` is the distance between the length-`j` prefix of `a` and the
length-`i` prefix of `b`, built from deletion (`matrix[i-1][j] + 1`),
insertion (`matrix[i][j-1] + 1`) and substitution
(`matrix[i-1][j-1] + cost`); here expressed as the structural recursion on
the two suffixes that this dynamic program tabulates. -/
def levList : List Char → List Char → ℕ
  | [], ys => ys.length
  | x :: xs, [] => (x :: xs).length
  | x :: xs, y :: ys =>
    min3 (levList (x :: xs) ys + 1) (levList xs (y :: ys) + 1)
      (levList xs ys + (if x = y then 0 else 1))
  termination_by a b => (a.length, b.length)

/-- `levenshtein(a, b)` with the early-return guards of the source
(`a === b` gives 0; an empty side gives the other side's length). -/
def levenshtein (a b : String) : ℕ :=
  if a = b then 0
  else if a.data.length = 0 then b.data.length
  else if b.data.length = 0 then a.data.length
  else levList a.data b.data

/-- JS `String.prototype.includes`: substring containment. -/
def includes (s t : String) : Bool :=
  decide (t.data <:+: s.data)

/-- `isSimilarName(a, b)`. -/
def isSimilarName (a b : String) : Bool :=
  let normA := normalizeString a
  let normB := normalizeString b
  if normA = "" || normB = "" then false
  else if normA = normB then true
  else if includes normA normB || includes normB normA then true
  else levenshtein normA normB ≤ 2

/-- `AddressContext`. -/
structure AddressContext where
  existingCity : Option String := none
  candidateCity : Option String := none
  existingPostcode : Option String := none
  candidatePostcode : Option String := none
  candidateLabel : Option String := none
deriving DecidableEq

/-- JS `s.split(' ')`: split at every single space character (consecutive
separators yield empty pieces). -/
def jsSplitOnSpaceAux (cur : List Char) : List Char → List String
  | [] => [⟨cur.reverse⟩]
  | c :: cs =>
    if c = ' ' then (⟨cur.reverse⟩ : String) :: jsSplitOnSpaceAux [] cs
    else jsSplitOnSpaceAux (c :: cur) cs

/-- JS `s.split(' ')`. -/
def jsSplitOnSpace (s : String) : List String :=
  jsSplitOnSpaceAux [] s.data

/-- JS `new Set(list)` observed as its insertion-ordered list of distinct
elements. -/
def jsSetList (l : List String) : List String :=
  l.foldl (fun acc x => if x ∈ acc then acc else acc ++ [x]) []

/-- Token set of a normalized address: `new Set(s.split(' '))`. -/
def tokenSet (s : String) : List String :=
  jsSetList (jsSplitOnSpace s)

/-- `isSimilarAddress(existingAddress, candidateAddress, context)`. -/
def isSimilarAddress (existingAddress candidateAddress : String)
    (context : AddressContext := {}) : Bool :=
  let existingNorm := normalizeAddress existingAddress
  let candidateNorm := normalizeAddress candidateAddress
  if existingNorm = "" || candidateNorm = "" then false
  else
    let cityGate : Bool :=
      match context.existingCity, context.candidateCity with
      | some ec, some cc =>
        if ec ≠ "" ∧ cc ≠ "" then
          let ne := normalizeString ec
          let nc := normalizeString cc
          ne ≠ "" ∧ nc ≠ "" ∧ ne ≠ nc
        else false
      | _, _ => false
    if cityGate then false
    else
      let pcGate : Bool :=
        match context.existingPostcode, context.candidatePostcode with
        | some ep, some cp => ep ≠ "" ∧ cp ≠ "" ∧ ep ≠ cp
        | _, _ => false
      if pcGate then false
      else if existingNorm = candidateNorm then true
      else if levenshtein existingNorm candidateNorm ≤ 4 then true
      else if
        (match context.candidateLabel with
         | some lbl =>
           lbl ≠ "" &&
             levenshtein existingNorm (normalizeAddress lbl) ≤ 4
         | none => false) then true
      else
        let tokensExisting := tokenSet existingNorm
        let tokensCandidate := tokenSet candidateNorm
        let intersection := tokensExisting.filter (fun t => t ∈ tokensCandidate)
        let minLength := Nat.min tokensExisting.length tokensCandidate.length
        intersection.length ≥ Nat.max 1 (minLength - 1)

/-! ## `src/utils/normalize.ts` -/

/-- The apostrophe character (written via its code point so that string
literals stay plain). -/
def apos : Char := Char.ofNat 39

/-- `tokens.join(' ')` at the character level: the pieces separated by
single spaces. -/
def joinSp : List (List Char) → List Char
  | [] => []
  | [t] => t
  | t :: ts => t ++ ' ' :: joinSp ts

namespace Utils

/-- The `STOPWORDS` set of `src/utils/normalize.ts`. -/
def STOPWORDS : List String :=
  ["le", "la", "les", "l", "l" ++ apos.toString,
   "au", "aux", "du", "de", "des", "d" ++ apos.toString,
   "bar", "club"]

/-- One pass of `.replace(/\b([ld])\b/g, ' ')`: an `l` or `d` standing
alone between word boundaries (computed on the original string) becomes a
space. `prevWord` tells whether the preceding original character was a
word character. -/
def elideAux (prevWord : Bool) : List Char → List Char
  | [] => []
  | c :: cs =>
    let nextWord := match cs with
      | [] => false
      | d :: _ => isWordChar d
    let out := if (c = 'l' ∨ c = 'd') ∧ prevWord = false ∧ nextWord = false
      then ' ' else c
    out :: elideAux (isWordChar c) cs

/-- Model of `.replace(/\b([ld])\b/g, ' ')`. -/
def elide (l : List Char) : List Char :=
  elideAux false l

/-- Split on whitespace runs (`.split(/\s+/)`, applied by the source to a
trimmed string, so no empty pieces arise). `acc` holds the current word,
reversed. -/
def wsplitAux (acc : List Char) : List Char → List (List Char)
  | [] => if acc.isEmpty then [] else [acc.reverse]
  | c :: cs =>
    if isWsChar c then
      if acc.isEmpty then wsplitAux [] cs else acc.reverse :: wsplitAux [] cs
    else wsplitAux (c :: acc) cs

/-- Split a character list on whitespace runs. -/
def wsplit (l : List Char) : List (List Char) :=
  wsplitAux [] l

/-- The record returned by `normalizeName`. -/
structure NormalizedName where
  normalized : String
  tokens : List String
deriving DecidableEq

/-- `normalizeName(input)` of `src/utils/normalize.ts`: fold diacritics and
case, collapse non-word runs, elide isolated `l`/`d`, trim; then split
into tokens, drop stopwords, and re-join with single spaces. -/
def normalizeName (input : String) : NormalizedName :=
  let normalized : String :=
    ⟨jsTrim (elide (collapseNonWord (input.data.map foldChar)))⟩
  if normalized = "" then ⟨"", []⟩
  else
    let tokens : List String :=
      ((wsplit normalized.data).map (fun t => (⟨jsTrim t⟩ : String))).filter
        (fun t => t ≠ "" && !(STOPWORDS.contains t))
    ⟨⟨jsTrim (joinSp (tokens.map String.data))⟩, tokens⟩

/-- `normalizeCity` of `src/utils/normalize.ts` (same folding, no stopword
removal, no elision). -/
def normalizeCity (input : String) : String :=
  ⟨jsTrim (collapseNonWord (input.data.map foldChar))⟩

end Utils

/-- Single-space join of a token list (the reading of
`tokens.join(' ')` used to state the `normalizeName` invariant). -/
def joinTokens : List String → String
  | [] => ""
  | [t] => t
  | t :: ts => t ++ " " ++ joinTokens ts

/-! ## `src/osm/homogenize.ts` -/

/-- A JS number as tested by `=== 0` and `Number.isNaN`. -/
inductive JNum where
  | nan : JNum
  | num (q : ℚ) : JNum
deriving DecidableEq

/-- A JSON object value (tag maps, address/contact sub-objects), observed
as its key/value entries. -/
abbrev JObj := List (String × String)

/-- JS truthiness of a nullable object combined with a non-empty key check
(`osm.address && Object.keys(osm.address).length > 0`). -/
def jsTruthyObj : Option JObj → Bool
  | none => false
  | some o => !o.isEmpty

namespace Homog

/-- The `STOPWORDS` set of `src/osm/homogenize.ts`. -/
def STOPWORDS : List String :=
  ["le", "la", "les", "l", "l" ++ apos.toString,
   "au", "aux", "du", "de", "des", "d", "d" ++ apos.toString]

/-- `normalizeName` of `src/osm/homogenize.ts` (same pipeline as the utils
variant but with its own stopword list and returning only the string). -/
def normalizeName (input : String) : String :=
  let normalized : String :=
    ⟨jsTrim (Utils.elide (collapseNonWord (input.data.map foldChar)))⟩
  if normalized = "" then ""
  else
    let tokens : List String :=
      ((Utils.wsplit normalized.data).map
          (fun t => (⟨jsTrim t⟩ : String))).filter
        (fun t => t ≠ "" && !(STOPWORDS.contains t))
    ⟨jsTrim (joinSp (tokens.map String.data))⟩

/-- A store row of the homogenization job (`BddVenueRow`): a venue that
still lacks OSM identity, with its metadata columns. -/
structure BddVenueRow where
  id : String
  nom : String
  adresse : String
  city : String
  latitude : JNum
  longitude : JNum
  osm_type : Option String
  osm_id : Option ℤ
  osm_url : Option String
  osm_tags_raw : Option JObj
  address : Option JObj
  contact : Option JObj
  osm_venue_type : Option String
  opening_hours : Option String
  capacity : Option ℚ
  live_music : Option Bool
  website : Option String
  phone : Option String
  facebook : Option String
  instagram : Option String
  source : Option String
deriving DecidableEq

/-- An OSM candidate record of the homogenization job (`OsmCandidate`). -/
structure OsmCandidate where
  nom : String
  adresse : String
  city : String
  latitude : JNum
  longitude : JNum
  osm_type : Option String := none
  osm_id : Option ℤ := none
  osm_url : Option String := none
  osm_tags_raw : Option JObj := none
  address : Option JObj := none
  contact : Option JObj := none
  osm_venue_type : Option String := none
  opening_hours : Option String := none
  capacity : Option ℚ := none
  live_music : Option Bool := none
  website : Option String := none
  phone : Option String := none
  facebook : Option String := none
  instagram : Option String := none
deriving DecidableEq

/-- `isEmptyValue` on a nullable string: null/undefined, or blank after
trimming. -/
def isEmptyStr : Option String → Bool
  | none => true
  | some s => jsTrimStr s = ""

/-- `isEmptyValue` on a nullable number (a number is never empty). -/
def isEmptyNum {α : Type} : Option α → Bool
  | none => true
  | some _ => false

/-- `isEmptyValue` on a nullable boolean (a boolean is never empty). -/
def isEmptyBool : Option Bool → Bool
  | none => true
  | some _ => false

/-- `isEmptyValue` on a nullable object: null/undefined or no keys. -/
def isEmptyObj : Option JObj → Bool
  | none => true
  | some o => o.isEmpty

/-- JS truthiness of a nullable number (`0` is falsy; candidates carry no
NaN ids in this model). -/
def jsTruthyInt : Option ℤ → Bool
  | none => false
  | some n => n ≠ 0

/-- The homogenization patch: one optional slot per column that
`buildPatch` may propose. -/
structure Patch where
  osm_type : Option String := none
  osm_id : Option ℤ := none
  osm_url : Option String := none
  osm_tags_raw : Option JObj := none
  address : Option JObj := none
  contact : Option JObj := none
  osm_venue_type : Option String := none
  opening_hours : Option String := none
  capacity : Option ℚ := none
  live_music : Option Bool := none
  website : Option String := none
  phone : Option String := none
  facebook : Option String := none
  instagram : Option String := none
  adresse : Option String := none
  latitude : Option JNum := none
  longitude : Option JNum := none
  source : Option String := none
  osm_last_sync_at : Option String := none
deriving DecidableEq

/-- Whether the patch object has any key yet (`Object.keys(patch).length > 0`
just before the sync timestamp is stamped). -/
def Patch.hasKey (p : Patch) : Bool :=
  p.osm_type.isSome || p.osm_id.isSome || p.osm_url.isSome ||
  p.osm_tags_raw.isSome || p.address.isSome || p.contact.isSome ||
  p.osm_venue_type.isSome || p.opening_hours.isSome || p.capacity.isSome ||
  p.live_music.isSome || p.website.isSome || p.phone.isSome ||
  p.facebook.isSome || p.instagram.isSome || p.adresse.isSome ||
  p.latitude.isSome || p.longitude.isSome || p.source.isSome

/-- `stripEmpty` applied to the patch: entries that are empty objects are
dropped (string, number and boolean entries are kept as-is; the object
entries are flat maps, so recursive cleaning is their own emptiness). -/
def stripEmptyPatch (p : Patch) : Patch :=
  { p with
    osm_tags_raw := match p.osm_tags_raw with
      | some o => if o.isEmpty then none else some o
      | none => none
    address := match p.address with
      | some o => if o.isEmpty then none else some o
      | none => none
    contact := match p.contact with
      | some o => if o.isEmpty then none else some o
      | none => none }

/-- `maybeAddressReplacement(bdd, osm)`. -/
def maybeAddressReplacement (bdd : BddVenueRow) (osm : OsmCandidate) :
    Option String :=
  let current := jsTrimStr bdd.adresse
  if current = "" then some osm.adresse
  else if current = bdd.city ∧ osm.adresse ≠ "" ∧ osm.adresse ≠ bdd.city then
    some osm.adresse
  else none

/-- The per-column conditions of `buildPatch` (the first block of `if`
statements building the initial `patch` object). -/
def basePatch (bdd : BddVenueRow) (osm : OsmCandidate) : Patch :=
  { osm_type :=
      if isEmptyStr bdd.osm_type ∧ jsTruthy osm.osm_type then osm.osm_type
      else none
    osm_id :=
      if isEmptyNum bdd.osm_id ∧ jsTruthyInt osm.osm_id then osm.osm_id
      else none
    osm_url :=
      if isEmptyStr bdd.osm_url ∧ jsTruthy osm.osm_url then osm.osm_url
      else none
    osm_tags_raw :=
      if isEmptyObj bdd.osm_tags_raw ∧ osm.osm_tags_raw.isSome then
        osm.osm_tags_raw
      else none
    address :=
      if isEmptyObj bdd.address ∧ jsTruthyObj osm.address then osm.address
      else none
    contact :=
      if isEmptyObj bdd.contact ∧ jsTruthyObj osm.contact then osm.contact
      else none
    osm_venue_type :=
      if isEmptyStr bdd.osm_venue_type ∧ jsTruthy osm.osm_venue_type then
        osm.osm_venue_type
      else none
    opening_hours :=
      if isEmptyStr bdd.opening_hours ∧ jsTruthy osm.opening_hours then
        osm.opening_hours
      else none
    capacity :=
      if isEmptyNum bdd.capacity ∧ osm.capacity.isSome then osm.capacity
      else none
    live_music :=
      if isEmptyBool bdd.live_music ∧ osm.live_music.isSome then
        osm.live_music
      else none
    website :=
      if isEmptyStr bdd.website ∧ jsTruthy osm.website then osm.website
      else none
    phone :=
      if isEmptyStr bdd.phone ∧ jsTruthy osm.phone then osm.phone else none
    facebook :=
      if isEmptyStr bdd.facebook ∧ jsTruthy osm.facebook then osm.facebook
      else none
    instagram :=
      if isEmptyStr bdd.instagram ∧ jsTruthy osm.instagram then osm.instagram
      else none
    adresse :=
      match maybeAddressReplacement bdd osm with
      | some a => if a ≠ "" then some a else none
      | none => none
    latitude := none
    longitude := none
    source := if isEmptyStr bdd.source then some "osm_seed" else none
    osm_last_sync_at := none }

/-- The coordinate block of `buildPatch`: when either stored coordinate is
zero or NaN, both coordinates are patched from the candidate. -/
def patchCoords (bdd : BddVenueRow) (osm : OsmCandidate) (p : Patch) :
    Patch :=
  let latEmpty := bdd.latitude = .num 0 ∨ bdd.latitude = .nan
  let lonEmpty := bdd.longitude = .num 0 ∨ bdd.longitude = .nan
  if latEmpty ∨ lonEmpty then
    { p with latitude := some osm.latitude, longitude := some osm.longitude }
  else p

/-- The sync-timestamp block of `buildPatch`. -/
def stampSync (nowIso : String) (p : Patch) : Patch :=
  if p.hasKey then { p with osm_last_sync_at := some nowIso } else p

/-- `buildPatch(bdd, osm, nowIso)` of `src/osm/homogenize.ts`: the field
conditions, then the coordinate pair, then the sync stamp, then
`stripEmpty`. -/
def buildPatch (bdd : BddVenueRow) (osm : OsmCandidate) (nowIso : String) :
    Patch :=
  stripEmptyPatch (stampSync nowIso (patchCoords bdd osm (basePatch bdd osm)))

end Homog

/-! ## `src/osm/types.ts` and the area resolver of `src/osm/nominatim.ts` -/

/-- `OsmElementType`. -/
inductive OsmElementType where
  | node
  | way
  | osmRelation
deriving DecidableEq

/-- An Overpass element; the boundary search runs `out tags`, so only
`type`, `id` and `tags` are populated there, while the amenity search also
carries coordinates. -/
structure OverpassElement where
  type : OsmElementType
  id : ℤ
  lat : Option ℚ := none
  lon : Option ℚ := none
  center : Option (ℚ × ℚ) := none
  tags : Option JObj := none
deriving DecidableEq

/-- Lookup of one tag value in a tag map. -/
def tagGet (tags : JObj) (k : String) : Option String :=
  (tags.find? (fun p => p.1 = k)).map (fun p => p.2)

/-- `AreaCandidate`. -/
structure AreaCandidate where
  id : ℤ
  name : String
  adminLevel : Option String
  population : Option ℕ
  tags : JObj
deriving DecidableEq

/-- `AreaSearchResult`. -/
structure AreaSearchResult where
  selected : Option AreaCandidate
  candidates : List AreaCandidate
  ambiguous : Bool
  areaId : Option ℤ := none
deriving DecidableEq

/-- Digit-fold of `Number(value.replace(/[^0-9]/g, ''))` (an all-digit
string always parses to a finite natural number; an empty digit string
parses to `0`). -/
def digitsToNat (l : List Char) : ℕ :=
  l.foldl (fun n c => 10 * n + (c.toNat - 48)) 0

/-- `parsePopulation(value)`. -/
def parsePopulation : Option String → Option ℕ
  | none => none
  | some v =>
    if v = "" then none
    else some (digitsToNat (v.data.filter Char.isDigit))

/-- The population key used for sorting: `candidate.population ?? 0`. -/
def popD (c : AreaCandidate) : ℕ :=
  c.population.getD 0

/-- The descending-population comparator `(a, b) => (b.population ?? 0) -
(a.population ?? 0)` as the order it sorts by. -/
def popGE (a b : AreaCandidate) : Prop :=
  popD b ≤ popD a

instance : DecidableRel popGE := fun a b =>
  inferInstanceAs (Decidable (popD b ≤ popD a))

instance : IsTotal AreaCandidate popGE :=
  ⟨fun a b => Nat.le_total (popD b) (popD a)⟩

instance : IsTrans AreaCandidate popGE :=
  ⟨fun _ _ _ h1 h2 => Nat.le_trans h2 h1⟩

/-- The candidate list `findAdminArea` builds from the Overpass response
(`relation` elements carrying a truthy `name` tag). -/
def areaCandidatesOf (elements : List OverpassElement) : List AreaCandidate :=
  (elements.filter (fun e =>
      e.type = .osmRelation ∧
        jsTruthy (e.tags.bind (fun t => tagGet t "name")))).map
    (fun e =>
      { id := e.id
        name := (e.tags.bind (fun t => tagGet t "name")).getD "unknown"
        adminLevel := e.tags.bind (fun t => tagGet t "admin_level")
        population := parsePopulation (e.tags.bind (fun t => tagGet t "population"))
        tags := e.tags.getD [] })

/-- The selection pool: the exact (case-insensitive) name matches when any
exist, the full candidate list otherwise. -/
def areaPool (candidates : List AreaCandidate) (city : String) :
    List AreaCandidate :=
  let normalizedTarget := jsLowerStr city
  let exactMatches :=
    candidates.filter (fun c => jsLowerStr c.name = normalizedTarget)
  if exactMatches.isEmpty then candidates else exactMatches

/-- The pure part of `findAdminArea` (everything after the Overpass
response arrives; the fetch itself is `fetchOverpass` below). The JS
engine's stable comparator sort is modelled by an insertion sort over the
comparator's order. -/
def findAdminAreaFrom (elements : List OverpassElement) (city : String) :
    AreaSearchResult :=
  let candidates := areaCandidatesOf elements
  if candidates.isEmpty then
    { selected := none, candidates := [], ambiguous := false }
  else
    let pool := areaPool candidates city
    let sorted := List.insertionSort popGE pool
    let selected := sorted.head?
    { selected := selected
      candidates := pool
      ambiguous := decide (1 < pool.length)
      areaId := selected.map (fun c => c.id + 3600000000) }

/-! ## The resilient fetch clients (`src/lib/ban.ts`, `src/osm/overpass.ts`)

A network is an oracle from call indices to outcomes; each model returns
the result delivered to the caller together with the number of network
calls performed. -/

/-- Outcome of one `fetch`. -/
inductive NetOutcome (β : Type) where
  | success (resp : β)
  | httpStatus (code : ℕ)
  | netFailure
deriving DecidableEq

/-- A fetch failure as raised to the caller. -/
inductive FetchErr where
  | http (code : ℕ)
  | net
  | generic
deriving DecidableEq

/-- The retryable status test `status >= 500 || status === 429`. -/
def retryable (code : ℕ) : Bool :=
  500 ≤ code || code = 429

/-- `fetchWithRetry(url, attempt, maxAttempts, timeoutMs)` of
`src/lib/ban.ts`, parameterized by the number of retries still allowed
after the current attempt (`remaining = maxAttempts - 1 - attempt`, the
quantity both `attempt < maxAttempts - 1` tests compare against).

The source's `throw` for a non-retryable status sits inside the `try`
block, so it is caught by the function's own `catch`, which retries. The
recursive retry for a retryable status is returned without `await`, so
although the `return` sits inside the `try`, a rejection of the returned
promise happens after the frame has exited and bypasses its `catch`. -/
def fetchWithRetryAux {β : Type} (oracle : ℕ → NetOutcome β) :
    ℕ → ℕ → Except FetchErr β × ℕ
  | k, remaining =>
    match oracle k, remaining with
    | .success r, _ => (.ok r, 1)
    | .httpStatus code, 0 =>
      -- last attempt: the thrown status error is rethrown by the catch
      (.error (.http code), 1)
    | .httpStatus code, r + 1 =>
      if retryable code then
        -- 429/5xx: the recursive retry is returned un-awaited, so its
        -- outcome (also a failure) is the frame's outcome
        match fetchWithRetryAux oracle (k + 1) r with
        | (res2, n2) => (res2, n2 + 1)
      else
        -- non-retryable status: thrown, caught by the catch, retried
        match fetchWithRetryAux oracle (k + 1) r with
        | (res2, n2) => (res2, n2 + 1)
    | .netFailure, 0 => (.error .net, 1)
    | .netFailure, r + 1 =>
      match fetchWithRetryAux oracle (k + 1) r with
      | (res2, n2) => (res2, n2 + 1)

/-- `fetchWithRetry` with the source's `attempt`/`maxAttempts` counters
(defaults `attempt = 0`, `maxAttempts = 3`). -/
def fetchWithRetry {β : Type} (oracle : ℕ → NetOutcome β) (k : ℕ)
    (attempt : ℕ := 0) (maxAttempts : ℕ := 3) : Except FetchErr β × ℕ :=
  fetchWithRetryAux oracle k (maxAttempts - 1 - attempt)

/-- The retry loop of `fetchOverpass` of `src/osm/overpass.ts`, counting
down the remaining loop iterations (`maxRetries - attempt`). `lastErr` is
the `lastError` variable. -/
def fetchOverpassAux {β : Type} (oracle : ℕ → NetOutcome β)
    (lastErr : Option FetchErr) : ℕ → ℕ → Except FetchErr β × ℕ
  | _, 0 => (.error (lastErr.getD .generic), 0)
  | k, r + 1 =>
    match oracle k with
    | .success resp => (.ok resp, 1)
    | .httpStatus code =>
      if retryable code then
        -- 429/5xx: delay and continue
        match fetchOverpassAux oracle (some (.http code)) (k + 1) r with
        | (res, n) => (res, n + 1)
      else
        -- other statuses: thrown, but the loop's catch records the error,
        -- delays and continues just the same
        match fetchOverpassAux oracle (some (.http code)) (k + 1) r with
        | (res, n) => (res, n + 1)
    | .netFailure =>
      match fetchOverpassAux oracle (some .net) (k + 1) r with
      | (res, n) => (res, n + 1)

/-- `OverpassResponse`. -/
structure OverpassResponse where
  elements : List OverpassElement
deriving DecidableEq

/-- `fetchOverpass(query, options)` (default `maxRetries = 3`). -/
def fetchOverpass {β : Type} (oracle : ℕ → NetOutcome β) (k : ℕ)
    (maxRetries : ℕ := 3) : Except FetchErr β × ℕ :=
  fetchOverpassAux oracle none k maxRetries

/-! ## `BanClient` of `src/lib/ban.ts` -/

/-- The properties of a BAN feature that the embedded flows read
(`label`, `city`, `postcode`; the remaining response fields are never
consulted by the reconciliation code). -/
structure BanFeatureProperties where
  label : String
  city : String
  postcode : Option String := none
deriving DecidableEq

/-- A BAN feature: `geometry.coordinates` is `[longitude, latitude]`. -/
structure BanFeature where
  longitude : ℚ
  latitude : ℚ
  properties : BanFeatureProperties
deriving DecidableEq

/-- A BAN response (`FeatureCollection`). -/
structure BanResponse where
  features : List BanFeature
deriving DecidableEq

/-- One line of the persistent geocode cache. -/
structure CacheRecord where
  key : String
  feature : Option BanFeature
  timestamp : String
deriving DecidableEq

/-- Association-map read (`Map.prototype.get`). -/
def mapGet {α : Type} (m : List (String × α)) (k : String) : Option α :=
  (m.find? (fun p => p.1 = k)).map (fun p => p.2)

/-- Association-map write (`Map.prototype.set`). -/
def mapSet {α : Type} (m : List (String × α)) (k : String) (v : α) :
    List (String × α) :=
  if (m.find? (fun p => p.1 = k)).isSome then
    m.map (fun p => if p.1 = k then (k, v) else p)
  else m ++ [(k, v)]

/-- The in-memory cache map plus the append-only cache file of one
`BanClient`. -/
structure BanClientState where
  cache : List (String × CacheRecord)
  file : List CacheRecord
deriving DecidableEq

/-- `buildKey(adresse, ville, postcode)`. -/
def buildKey (adresse ville : String) (postcode : Option String) : String :=
  jsTrimStr adresse ++ "|" ++ jsTrimStr ville ++ "|" ++
    ((postcode.map jsTrimStr).getD "")

/-- `BanClient.geocode(adresse, ville, postcode)`: returns the
`GeocodeResult` (feature plus `fromCache` flag) or the propagated fetch
failure, the successor client state, and the number of network calls
performed. `k` indexes the next network call of the oracle and `now` is
the timestamp recorded in the cache line. -/
def banGeocode (oracle : ℕ → NetOutcome BanResponse) (k : ℕ) (now : String)
    (s : BanClientState) (adresse ville : String)
    (postcode : Option String := none) :
    Except FetchErr (Option BanFeature × Bool) × BanClientState × ℕ :=
  let key := buildKey adresse ville postcode
  match mapGet s.cache key with
  | some cached => (.ok (cached.feature, true), s, 0)
  | none =>
    match fetchWithRetry oracle k with
    | (.error e, n) => (.error e, s, n)
    | (.ok resp, n) =>
      let feature := resp.features.head?
      let line : CacheRecord := ⟨key, feature, now⟩
      (.ok (feature, false), ⟨mapSet s.cache key line, s.file ++ [line]⟩, n)

/-! ## The geocoded-address flow (`src/upsert.ts`, `src/geocode.ts`,
`src/lib/supabase.ts`) -/

/-- `GeocodeStatus`. -/
inductive GeocodeStatus where
  | ok
  | ambiguous
  | error
deriving DecidableEq

/-- `InputRecord` of `src/geocode.ts`. -/
structure InputRecord where
  nom : String
  adresse : String
  ville : String
  postcode : Option String := none
deriving DecidableEq

/-- `GeocodedEntry`. -/
structure GeocodedEntry where
  input : InputRecord
  feature : Option BanFeature
  status : GeocodeStatus
  reason : Option String := none
deriving DecidableEq

/-- `VenueRow` of the geocoded flow's store client. -/
structure VenueRow where
  id : String
  nom : String
  adresse : String
  city : String
  latitude : ℚ
  longitude : ℚ
  barbars : Option Bool := none
deriving DecidableEq

/-- `VenuePayload` of the geocoded flow. -/
structure VenuePayload where
  nom : String
  adresse : String
  city : String
  latitude : ℚ
  longitude : ℚ
  barbars : Bool
deriving DecidableEq

/-- The venue store of the geocoded flow, as the list of its rows in
insertion order together with the id the database will assign next. -/
structure GeoStore where
  rows : List VenueRow
  nextId : ℕ
deriving DecidableEq

/-- `findVenueByName(nom)`: case-insensitive exact match, first row
(`ilike(...).limit(1).maybeSingle()`). -/
def findVenueByName (rows : List VenueRow) (nom : String) : Option VenueRow :=
  (rows.filter (fun r => ciEq r.nom nom)).head?

/-- `findVenueByCity(city)`: all rows with a case-insensitive city match. -/
def findVenueByCity (rows : List VenueRow) (city : String) : List VenueRow :=
  rows.filter (fun r => ciEq r.city city)

/-- `UpsertAction`. -/
inductive UpsertAction where
  | insert
  | update
  | conflict
  | duplicate
  | error
deriving DecidableEq

/-- One row of the geocoded flow's action ledger (`UpsertRecord`). -/
structure UpsertRecord where
  action : UpsertAction
  nom : String
  adresse : String
  city : String
  latitude : Option ℚ
  longitude : Option ℚ
  reason : Option String := none
deriving DecidableEq

/-- One row of the conflict list (`ConflictRecord`). -/
structure ConflictRecord where
  nom : String
  existingAdresse : String
  existingCity : String
  newAdresse : String
  newCity : String
  reason : String
deriving DecidableEq

/-- One row of the duplicate list (`DuplicateRecord`). -/
structure DuplicateRecord where
  nom : String
  duplicateNom : String
  adresse : String
  city : String
  duplicateId : String
  reason : String
deriving DecidableEq

/-- The update payload of `updateVenue` in the geocoded flow
(`Omit<VenuePayload, 'nom'>`). -/
structure GeoUpdate where
  adresse : String
  city : String
  latitude : ℚ
  longitude : ℚ
  barbars : Bool
deriving DecidableEq

/-- A store mutation issued by the geocoded flow. -/
inductive GeoMutation where
  | insert (payload : VenuePayload)
  | update (id : String) (payload : GeoUpdate)
deriving DecidableEq

/-- The running state of `processUpserts`: the store, the per-city
read-through cache (`cityVenueCache`), the three audit outputs, the
counters, the mutation log, and a counter that deterministically models
the `temp-${Date.now()}-${Math.random()}` ids of cache placeholder rows. -/
structure GeoState where
  store : GeoStore
  cache : List (String × List VenueRow)
  recs : List UpsertRecord
  confs : List ConflictRecord
  dups : List DuplicateRecord
  inserted : ℕ
  updated : ℕ
  conflicts : ℕ
  duplicates : ℕ
  errors : ℕ
  mutations : List GeoMutation
  tempCounter : ℕ
deriving DecidableEq

/-- `buildVenuePayload(entry)` for an entry whose feature is present.
`properties.label` is a mandatory response field, so `label ?? fallback`
is `label`; `properties.city || entry.input.ville` falls back on an empty
city. -/
def buildVenuePayload (e : GeocodedEntry) (f : BanFeature) : VenuePayload :=
  { nom := e.input.nom
    adresse := f.properties.label
    city := if f.properties.city = "" then e.input.ville else f.properties.city
    latitude := roundCoord f.latitude
    longitude := roundCoord f.longitude
    barbars := true }

/-- `compareWithExisting(existing, entry)`. -/
def compareWithExisting (existing : VenueRow) (_e : GeocodedEntry)
    (f : BanFeature) : Bool :=
  isSimilarAddress existing.adresse f.properties.label
    { existingCity := some existing.city
      candidateCity := some f.properties.city
      candidatePostcode := f.properties.postcode
      candidateLabel := some f.properties.label }

/-- The row the database stores for an insert (ids are issued in
sequence). -/
def dbRowOfPayload (p : VenuePayload) (nextId : ℕ) : VenueRow :=
  { id := "db-" ++ toString nextId
    nom := p.nom
    adresse := p.adresse
    city := p.city
    latitude := p.latitude
    longitude := p.longitude
    barbars := some p.barbars }

/-- `updateVenue` as seen by the store: the identified row's payload
columns are overwritten. -/
def applyGeoUpdate (rows : List VenueRow) (id : String) (u : GeoUpdate) :
    List VenueRow :=
  rows.map (fun r =>
    if r.id = id then
      { r with adresse := u.adresse, city := u.city, latitude := u.latitude
               longitude := u.longitude, barbars := some u.barbars }
    else r)

/-- `updateCityCache(city, venue)`. -/
def updateCityCache (cache : List (String × List VenueRow)) (city : String)
    (v : VenueRow) : List (String × List VenueRow) :=
  match mapGet cache city with
  | none => cache
  | some rows =>
    if (rows.find? (fun r => r.id = v.id)).isSome then
      mapSet cache city (rows.map (fun r => if r.id = v.id then v else r))
    else
      mapSet cache city (rows ++ [v])

/-- The rows `getCityVenues(city)` will deliver in a given state (the
cached list, or a fresh store query on a cache miss). -/
def cityCandidates (s : GeoState) (city : String) : List VenueRow :=
  match mapGet s.cache city with
  | some rows => rows
  | none => findVenueByCity s.store.rows city

/-- Processing of one geocoded entry by `processUpserts` (the body of the
`for` loop). Entries whose status is not `ok` or that carry no feature are
skipped; in this pure model the store client never throws, so the `catch`
branch producing `error` records is unreachable. -/
def processGeoEntry (dryRun : Bool) (s : GeoState) (e : GeocodedEntry) :
    GeoState :=
  match e.status, e.feature with
  | .ok, some f =>
    let payload := buildVenuePayload e f
    match findVenueByName s.store.rows e.input.nom with
    | none =>
      -- getCityVenues: read through the per-city cache
      let candidates := cityCandidates s payload.city
      let cache1 :=
        match mapGet s.cache payload.city with
        | some _ => s.cache
        | none => mapSet s.cache payload.city candidates
      let normalizedPayloadAddress := normalizeAddress payload.adresse
      match candidates.find? (fun c =>
          (normalizeAddress c.adresse = normalizedPayloadAddress : Bool) &&
            isSimilarName c.nom payload.nom) with
      | some duplicate =>
        { s with
          cache := cache1
          duplicates := s.duplicates + 1
          dups := s.dups ++
            [{ nom := payload.nom, duplicateNom := duplicate.nom
               adresse := payload.adresse, city := payload.city
               duplicateId := duplicate.id
               reason := "address_name_similarity" }]
          recs := s.recs ++
            [{ action := .duplicate, nom := payload.nom
               adresse := payload.adresse, city := payload.city
               latitude := some payload.latitude
               longitude := some payload.longitude
               reason := some "address_name_similarity" }] }
      | none =>
        let store1 :=
          if dryRun then s.store
          else { rows := s.store.rows ++ [dbRowOfPayload payload s.store.nextId]
                 nextId := s.store.nextId + 1 }
        let mutations1 :=
          if dryRun then s.mutations else s.mutations ++ [.insert payload]
        -- the cache necessarily holds the city here (getCityVenues set it),
        -- and receives the `temp-…` placeholder row
        let temp : VenueRow :=
          { id := "temp-" ++ toString s.tempCounter
            nom := payload.nom, adresse := payload.adresse
            city := payload.city, latitude := payload.latitude
            longitude := payload.longitude, barbars := some payload.barbars }
        let cache2 :=
          match mapGet cache1 payload.city with
          | some rows => mapSet cache1 payload.city (rows ++ [temp])
          | none => cache1
        { s with
          store := store1
          cache := cache2
          mutations := mutations1
          inserted := s.inserted + 1
          tempCounter := s.tempCounter + 1
          recs := s.recs ++
            [{ action := .insert, nom := payload.nom
               adresse := payload.adresse, city := payload.city
               latitude := some payload.latitude
               longitude := some payload.longitude }] }
    | some existing =>
      if compareWithExisting existing e f then
        let updatePayload : GeoUpdate :=
          { adresse := payload.adresse, city := payload.city
            latitude := payload.latitude, longitude := payload.longitude
            barbars := true }
        let store1 :=
          if dryRun then s.store
          else { s.store with
                 rows := applyGeoUpdate s.store.rows existing.id updatePayload }
        let mutations1 :=
          if dryRun then s.mutations
          else s.mutations ++ [.update existing.id updatePayload]
        { s with
          store := store1
          mutations := mutations1
          updated := s.updated + 1
          cache := updateCityCache s.cache payload.city
            { existing with
              adresse := updatePayload.adresse, city := updatePayload.city
              latitude := updatePayload.latitude
              longitude := updatePayload.longitude
              barbars := some updatePayload.barbars }
          recs := s.recs ++
            [{ action := .update, nom := payload.nom
               adresse := payload.adresse, city := payload.city
               latitude := some payload.latitude
               longitude := some payload.longitude }] }
      else
        { s with
          conflicts := s.conflicts + 1
          confs := s.confs ++
            [{ nom := payload.nom, existingAdresse := existing.adresse
               existingCity := existing.city, newAdresse := payload.adresse
               newCity := payload.city, reason := "address_mismatch" }]
          recs := s.recs ++
            [{ action := .conflict, nom := payload.nom
               adresse := payload.adresse, city := payload.city
               latitude := some payload.latitude
               longitude := some payload.longitude
               reason := some "address_mismatch" }] }
  | _, _ => s

/-- An empty run state over a given store. -/
def initGeoState (store : GeoStore) : GeoState :=
  { store := store, cache := [], recs := [], confs := [], dups := []
    inserted := 0, updated := 0, conflicts := 0, duplicates := 0
    errors := 0, mutations := [], tempCounter := 0 }

/-- `processUpserts(entries, options)` over an initial state. -/
def processUpserts (dryRun : Bool) (entries : List GeocodedEntry)
    (s : GeoState) : GeoState :=
  entries.foldl (processGeoEntry dryRun) s

/-- `UpsertReport`. -/
structure UpsertReport where
  processed : ℕ
  inserted : ℕ
  updated : ℕ
  conflicts : ℕ
  duplicates : ℕ
  errors : ℕ
deriving DecidableEq

/-- The report returned by `processUpserts`. -/
def geoReport (entries : List GeocodedEntry) (s : GeoState) : UpsertReport :=
  { processed := (entries.filter (fun e => e.status = .ok)).length
    inserted := s.inserted
    updated := s.updated
    conflicts := s.conflicts
    duplicates := s.duplicates
    errors := s.errors }

/-! ## The OSM flow (`src/osm/prepareInserts.ts` with `findVenuesByName`,
`src/lib/supabase.ts`, `src/osm/types.ts`) -/

/-- `OsmAddress`. -/
structure OsmAddress where
  housenumber : Option String := none
  street : Option String := none
  postcode : Option String := none
  city : Option String := none
  full : Option String := none
deriving DecidableEq

/-- `OsmContact`. -/
structure OsmContact where
  website : Option String := none
  phone : Option String := none
  instagram : Option String := none
  facebook : Option String := none
deriving DecidableEq

/-- `NormalizedOsmVenue` (the `type` field is `venueType` here because
`type` is reserved in Lean). -/
structure NormalizedOsmVenue where
  osm_type : OsmElementType
  osm_id : ℤ
  osm_url : String
  name : String
  venueType : String
  latitude : ℚ
  longitude : ℚ
  adresse : String
  city : String
  postcode : Option String := none
  address : OsmAddress := {}
  contact : OsmContact := {}
  opening_hours : Option String := none
  capacity : Option String := none
  live_music : Option String := none
  osm_tags_raw : JObj := []
deriving DecidableEq

/-- `OsmEntry` status. -/
inductive OsmStatus where
  | ok
  | ambiguous
  | error
deriving DecidableEq

/-- `OsmEntry`. -/
structure OsmEntry where
  status : OsmStatus
  venue : Option NormalizedOsmVenue
  reason : Option String := none
deriving DecidableEq

/-- A store row of the OSM flow (the `VenueRow` of
`src/lib/supabase.ts` with OSM identity columns). -/
structure OsmVenueRow where
  id : String
  nom : String
  adresse : String
  city : String
  latitude : ℚ
  longitude : ℚ
  tags : Option (List String) := none
  osm_type : Option OsmElementType := none
  osm_id : Option ℤ := none
  osm_url : Option String := none
  osm_tags_raw : Option JObj := none
deriving DecidableEq, Inhabited

/-- The venue store of the OSM flow. -/
structure OsmStore where
  rows : List OsmVenueRow
  nextId : ℕ
deriving DecidableEq

/-- `findVenuesByName(nom)`: case-insensitive exact matches, first ten
(`ilike(...).limit(10)`). -/
def findVenuesByName (rows : List OsmVenueRow) (nom : String) :
    List OsmVenueRow :=
  (rows.filter (fun r => ciEq r.nom nom)).take 10

/-- `findVenueByOsm(osmType, osmId)`. -/
def findVenueByOsm (rows : List OsmVenueRow) (osmType : OsmElementType)
    (osmId : ℤ) : Option OsmVenueRow :=
  (rows.filter
    (fun r => r.osm_type = some osmType ∧ r.osm_id = some osmId)).head?

/-- The full OSM venue payload
(`VenuePayload` of `src/lib/supabase.ts`). -/
structure OsmPayload where
  nom : String
  adresse : String
  city : String
  latitude : ℚ
  longitude : ℚ
  tags : Option (List String) := none
  osm_type : Option OsmElementType := none
  osm_id : Option ℤ := none
  osm_url : Option String := none
  osm_tags_raw : Option JObj := none
  address : Option OsmAddress := none
  contact : Option OsmContact := none
  osm_venue_type : Option String := none
  opening_hours : Option String := none
  capacity : Option ℚ := none
  live_music : Option Bool := none
  website : Option String := none
  phone : Option String := none
  instagram : Option String := none
  facebook : Option String := none
  source : Option String := none
  osm_last_sync_at : Option String := none
deriving DecidableEq

/-- `parseLiveMusic(raw)` of `src/export/dbShape.ts`. -/
def parseLiveMusic : Option String → Option Bool
  | none => none
  | some raw =>
    if raw = "" then none
    else if jsLowerStr raw = "yes" then some true
    else if jsLowerStr raw = "no" then some false
    else none

/-- `parseCapacity(raw)` of `src/export/dbShape.ts`: keep the digits and
accept a positive value. -/
def parseCapacity : Option String → Option ℚ
  | none => none
  | some raw =>
    if raw = "" then none
    else
      let numeric := digitsToNat (raw.data.filter Char.isDigit)
      if 0 < numeric then some (numeric : ℚ) else none

/-- The local `stripTrailingSlashes` of `toVenuePayload`
(`value.replace(/[\\/]+$/g, '')` applied to a truthy value): drop the
trailing run of slashes and backslashes. -/
def stripTrailingSlashes (s : String) : String :=
  ⟨(s.data.reverse.dropWhile (fun c => c = '/' || c = '\\')).reverse⟩

/-- `Number.parseInt(raw, 10)`: skip leading whitespace, read an optional
sign and then the longest leading run of decimal digits; no digit at all
means `NaN` (`none`). -/
def jsParseInt (s : String) : Option ℤ :=
  let core : List Char → Option ℕ := fun l =>
    let ds := l.takeWhile Char.isDigit
    if ds.isEmpty then none else some (digitsToNat ds)
  match s.data.dropWhile isWsChar with
  | '-' :: rest => (core rest).map (fun n => -(n : ℤ))
  | '+' :: rest => (core rest).map (fun n => (n : ℤ))
  | t => (core t).map (fun n => (n : ℤ))

/-- `Object.keys(stripEmpty({ ...entry.address })).length > 0`: the
fields are strings or null/undefined, and `stripEmpty` drops exactly the
null/undefined entries (it keeps empty strings). -/
def osmAddressHasKey (a : OsmAddress) : Bool :=
  a.housenumber.isSome || a.street.isSome || a.postcode.isSome ||
    a.city.isSome || a.full.isSome

/-- `Object.keys(stripEmpty({ ...entry.contact })).length > 0`. -/
def osmContactHasKey (c : OsmContact) : Bool :=
  c.website.isSome || c.phone.isSome || c.instagram.isSome ||
    c.facebook.isSome

/-- `toVenuePayload(entry, nowIso)` of the OSM fetch module (the
`src/osm/fetch.ts` revision in `src/unnamed/part_004`). The outer
`stripEmpty` drops null/undefined values (`none` fields here), empty
arrays and objects emptied by the recursive cleaning, and keeps every
string and number — including empty strings and zero; `address` and
`contact` are pre-stripped and sent only when a key remains, capacity
goes through `Number.parseInt(_, 10)` behind a truthiness test, and the
`live_music` comparison against `'yes'`/`'no'` is exact. -/
def toVenuePayload (v : NormalizedOsmVenue) (nowIso : String) : OsmPayload :=
  { nom := v.name
    adresse := v.adresse
    city := v.city
    latitude := v.latitude
    longitude := v.longitude
    tags := if v.venueType ≠ "" then some [v.venueType] else none
    osm_type := some v.osm_type
    osm_id := some v.osm_id
    osm_url := some v.osm_url
    osm_tags_raw :=
      if v.osm_tags_raw.isEmpty then none else some v.osm_tags_raw
    address := if osmAddressHasKey v.address then some v.address else none
    contact := if osmContactHasKey v.contact then some v.contact else none
    osm_venue_type := some v.venueType
    opening_hours := v.opening_hours
    capacity :=
      match v.capacity with
      | none => none
      | some raw =>
        if raw = "" then none
        else (jsParseInt raw).map (fun n => (n : ℚ))
    live_music :=
      match v.live_music with
      | none => none
      | some raw =>
        if raw = "yes" then some true
        else if raw = "no" then some false
        else none
    website :=
      match v.contact.website with
      | none => none
      | some w => if w = "" then none else some (stripTrailingSlashes w)
    phone := v.contact.phone
    instagram :=
      match v.contact.instagram with
      | none => none
      | some w => if w = "" then none else some (stripTrailingSlashes w)
    facebook :=
      match v.contact.facebook with
      | none => none
      | some w => if w = "" then none else some (stripTrailingSlashes w)
    source := some "osm_seed"
    osm_last_sync_at := some nowIso }

/-- `buildOsmPayload(entry, nowIso)` (a spread of `toVenuePayload`). -/
def buildOsmPayload (v : NormalizedOsmVenue) (nowIso : String) : OsmPayload :=
  toVenuePayload v nowIso

/-- The update payload sent by the OSM flow
(`Omit<VenuePayload, 'nom'>`; a `none` field models a key that is absent
or `undefined`, which `stripUndefined` strips so that the stored column
is left alone). -/
structure OsmUpdate where
  adresse : String
  city : String
  latitude : ℚ
  longitude : ℚ
  osm_type : Option OsmElementType := none
  osm_id : Option ℤ := none
  osm_url : Option String := none
  osm_tags_raw : Option JObj := none
  address : Option OsmAddress := none
  contact : Option OsmContact := none
  osm_venue_type : Option String := none
  opening_hours : Option String := none
  capacity : Option ℚ := none
  live_music : Option Bool := none
  website : Option String := none
  phone : Option String := none
  instagram : Option String := none
  facebook : Option String := none
  source : Option String := none
  osm_last_sync_at : Option String := none
  tags : Option (List String) := none
deriving DecidableEq

/-- The update payload of the OSM-identity branch and of the name-match
branch (both stamp the identity and the full metadata; the tag list is
sent only when the stored one is empty). -/
def osmUpdateOfPayload (payload : OsmPayload) (existingTags : Option (List String)) :
    OsmUpdate :=
  { adresse := payload.adresse
    city := payload.city
    latitude := payload.latitude
    longitude := payload.longitude
    osm_type := payload.osm_type
    osm_id := payload.osm_id
    osm_url := payload.osm_url
    osm_tags_raw := payload.osm_tags_raw
    address := payload.address
    contact := payload.contact
    osm_venue_type := payload.osm_venue_type
    opening_hours := payload.opening_hours
    capacity := payload.capacity
    live_music := payload.live_music
    website := payload.website
    phone := payload.phone
    instagram := payload.instagram
    facebook := payload.facebook
    source := payload.source
    osm_last_sync_at := payload.osm_last_sync_at
    tags :=
      match existingTags with
      | some l => if l.length > 0 then none else payload.tags
      | none => payload.tags }

/-- A store mutation issued by the OSM flow. -/
inductive OsmMutation where
  | insert (payload : OsmPayload)
  | update (id : String) (payload : OsmUpdate)
deriving DecidableEq

/-- One row of the OSM flow's action ledger. -/
structure OsmUpsertRecord where
  action : UpsertAction
  nom : String
  adresse : String
  city : String
  latitude : Option ℚ
  longitude : Option ℚ
  reason : Option String := none
deriving DecidableEq

/-- The running state of `processOsmUpserts`. -/
structure OsmState where
  store : OsmStore
  recs : List OsmUpsertRecord
  confs : List ConflictRecord
  inserted : ℕ
  updated : ℕ
  conflicts : ℕ
  errors : ℕ
  mutations : List OsmMutation
deriving DecidableEq

/-- `updateVenue` of the OSM flow as seen by the store: `stripUndefined`
removes the keys sent as `undefined` (`none` fields of the update here),
so those columns are left unchanged. -/
def applyOsmUpdate (rows : List OsmVenueRow) (id : String) (u : OsmUpdate) :
    List OsmVenueRow :=
  rows.map (fun r =>
    if r.id = id then
      { r with
        adresse := u.adresse, city := u.city, latitude := u.latitude
        longitude := u.longitude
        osm_type := match u.osm_type with | some t => some t | none => r.osm_type
        osm_id := match u.osm_id with | some i => some i | none => r.osm_id
        osm_url := match u.osm_url with | some l => some l | none => r.osm_url
        osm_tags_raw :=
          match u.osm_tags_raw with | some o => some o | none => r.osm_tags_raw
        tags := match u.tags with | some l => some l | none => r.tags }
    else r)

/-- The database row created by `insertVenue` in the OSM flow. -/
def osmRowOfPayload (p : OsmPayload) (nextId : ℕ) : OsmVenueRow :=
  { id := "db-" ++ toString nextId
    nom := p.nom
    adresse := p.adresse
    city := p.city
    latitude := p.latitude
    longitude := p.longitude
    tags := p.tags
    osm_type := p.osm_type
    osm_id := p.osm_id
    osm_url := p.osm_url
    osm_tags_raw := p.osm_tags_raw }

/-- The 200 m proximity gate `isCloseCoordinates(a, b)` of
`src/osm/prepareInserts.ts`, as the real-valued haversine predicate the
source computes in floating point. -/
def isCloseCoordinatesR (a : NormalizedOsmVenue) (b : OsmVenueRow) : Prop :=
  let toRad : ℝ → ℝ := fun value => value * Real.pi / 180
  let lat1 := toRad (a.latitude : ℝ)
  let lat2 := toRad (b.latitude : ℝ)
  let dLat := lat2 - lat1
  let dLon := toRad (b.longitude : ℝ) - toRad (a.longitude : ℝ)
  let haversine :=
    Real.sin (dLat / 2) ^ 2 +
      Real.cos lat1 * Real.cos lat2 * Real.sin (dLon / 2) ^ 2
  2 * 6371 * Real.arcsin (Real.sqrt haversine) ≤ 0.2

/-- The address-similarity context the OSM flow passes. -/
def osmAddressContext (candidate : OsmVenueRow) (payload : OsmPayload)
    (v : NormalizedOsmVenue) : AddressContext :=
  { existingCity := some candidate.city
    candidateCity := some payload.city
    candidatePostcode := v.postcode }

/-- Processing of one OSM entry by `processOsmUpserts` (the body of the
`for` loop). The floating-point proximity gate is passed in as the boolean
function `closeGate` (the source's `isCloseCoordinates`, specified by
`isCloseCoordinatesR`); in this pure model the store client never throws,
so the `catch` branch producing `error` records is unreachable. -/
def processOsmEntry (closeGate : NormalizedOsmVenue → OsmVenueRow → Bool)
    (dryRun : Bool) (nowIso : String) (s : OsmState) (e : OsmEntry) :
    OsmState :=
  match e.status, e.venue with
  | .ok, some v =>
    let payload := buildOsmPayload v nowIso
    match findVenueByOsm s.store.rows v.osm_type v.osm_id with
    | some existingByOsm =>
      let updatePayload := osmUpdateOfPayload payload existingByOsm.tags
      let store1 :=
        if dryRun then s.store
        else { s.store with
               rows := applyOsmUpdate s.store.rows existingByOsm.id
                 updatePayload }
      let mutations1 :=
        if dryRun then s.mutations
        else s.mutations ++ [.update existingByOsm.id updatePayload]
      { s with
        store := store1
        mutations := mutations1
        updated := s.updated + 1
        recs := s.recs ++
          [{ action := .update, nom := payload.nom
             adresse := payload.adresse, city := payload.city
             latitude := some payload.latitude
             longitude := some payload.longitude }] }
    | none =>
      let existingByName := findVenuesByName s.store.rows payload.nom
      if existingByName.length > 0 then
        let matching := existingByName.filter (fun candidate =>
          isSimilarAddress candidate.adresse payload.adresse
              (osmAddressContext candidate payload v) &&
            closeGate v candidate)
        if matching.length ≠ 1 then
          let conflictTarget :=
            (matching.head?.orElse (fun _ => existingByName.head?)).get!
          let reason :=
            if matching.length = 0 then "name_conflict_address_mismatch"
            else "multiple_matches"
          { s with
            conflicts := s.conflicts + 1
            confs := s.confs ++
              [{ nom := payload.nom
                 existingAdresse := conflictTarget.adresse
                 existingCity := conflictTarget.city
                 newAdresse := payload.adresse, newCity := payload.city
                 reason := reason }]
            recs := s.recs ++
              [{ action := .conflict, nom := payload.nom
                 adresse := payload.adresse, city := payload.city
                 latitude := some payload.latitude
                 longitude := some payload.longitude
                 reason := some reason }] }
        else
          let existing := matching.head?.get!
          let updatePayload := osmUpdateOfPayload payload existing.tags
          let store1 :=
            if dryRun then s.store
            else { s.store with
                   rows := applyOsmUpdate s.store.rows existing.id
                     updatePayload }
          let mutations1 :=
            if dryRun then s.mutations
            else s.mutations ++ [.update existing.id updatePayload]
          { s with
            store := store1
            mutations := mutations1
            updated := s.updated + 1
            recs := s.recs ++
              [{ action := .update, nom := payload.nom
                 adresse := payload.adresse, city := payload.city
                 latitude := some payload.latitude
                 longitude := some payload.longitude
                 reason := some "name_match_address_match" }] }
      else
        let store1 :=
          if dryRun then s.store
          else { rows := s.store.rows ++
                   [osmRowOfPayload payload s.store.nextId]
                 nextId := s.store.nextId + 1 }
        let mutations1 :=
          if dryRun then s.mutations else s.mutations ++ [.insert payload]
        { s with
          store := store1
          mutations := mutations1
          inserted := s.inserted + 1
          recs := s.recs ++
            [{ action := .insert, nom := payload.nom
               adresse := payload.adresse, city := payload.city
               latitude := some payload.latitude
               longitude := some payload.longitude }] }
  | _, _ => s

/-- An empty OSM run state over a given store. -/
def initOsmState (store : OsmStore) : OsmState :=
  { store := store, recs := [], confs := [], inserted := 0, updated := 0
    conflicts := 0, errors := 0, mutations := [] }

/-- `processOsmUpserts(entries, options)` over an initial state. -/
def processOsmUpserts (closeGate : NormalizedOsmVenue → OsmVenueRow → Bool)
    (dryRun : Bool) (nowIso : String) (entries : List OsmEntry)
    (s : OsmState) : OsmState :=
  entries.foldl (processOsmEntry closeGate dryRun nowIso) s

/-- `OsmUpsertReport`. -/
structure OsmUpsertReport where
  processed : ℕ
  inserted : ℕ
  updated : ℕ
  conflicts : ℕ
  errors : ℕ
deriving DecidableEq

/-- The report returned by `processOsmUpserts`. -/
def osmReport (entries : List OsmEntry) (s : OsmState) : OsmUpsertReport :=
  { processed := (entries.filter (fun e => e.status = .ok)).length
    inserted := s.inserted
    updated := s.updated
    conflicts := s.conflicts
    errors := s.errors }

/-- The `matching` list computed by the name-match branch of
`processOsmUpserts`: the case-insensitive exact name hits filtered by
address similarity and the proximity gate. -/
def osmMatching (closeGate : NormalizedOsmVenue → OsmVenueRow → Bool)
    (s : OsmState) (v : NormalizedOsmVenue) (nowIso : String) :
    List OsmVenueRow :=
  (findVenuesByName s.store.rows (buildOsmPayload v nowIso).nom).filter
    (fun candidate =>
      isSimilarAddress candidate.adresse (buildOsmPayload v nowIso).adresse
          (osmAddressContext candidate (buildOsmPayload v nowIso) v) &&
        closeGate v candidate)

/-! ## Concrete fixtures used by the closed test theorems -/

/-- The two boundary candidates of the spec's area-resolution example:
both named "Paris", with populations 2,000,000 and 500. -/
def parisElements : List OverpassElement :=
  [{ type := .osmRelation, id := 1
     tags := some [("name", "Paris"), ("admin_level", "8"),
                   ("population", "2000000")] },
   { type := .osmRelation, id := 2
     tags := some [("name", "Paris"), ("admin_level", "8"),
                   ("population", "500")] }]

/-- A fully populated store row whose address column holds just the city
name ("Nantes"). -/
def bddC2 : Homog.BddVenueRow :=
  { id := "v1", nom := "Le Lieu", adresse := "Nantes", city := "Nantes"
    latitude := .num 1, longitude := .num 2
    osm_type := some "node", osm_id := some 5, osm_url := some "u"
    osm_tags_raw := some [("amenity", "bar")]
    address := some [("city", "Nantes")], contact := some [("phone", "0")]
    osm_venue_type := some "bar", opening_hours := some "Mo"
    capacity := some 10, live_music := some true, website := some "w"
    phone := some "p", facebook := some "f", instagram := some "i"
    source := some "s" }

/-- A candidate supplying a real street address for `bddC2`. -/
def osmC2 : Homog.OsmCandidate :=
  { nom := "Le Lieu", adresse := "12 rue de la paix", city := "Nantes"
    latitude := .num 1, longitude := .num 2 }

/-- A fully populated store row whose longitude is an ordinary number but
whose latitude is exactly zero. -/
def bddC2lat : Homog.BddVenueRow :=
  { bddC2 with
    adresse := "7 rue neuve"
    latitude := .num 0
    longitude := .num 2 }

/-- The amended-claim reading of `isSimilarAddress` (C6): the gates and
the four-way disjunction as the corrected specification states them. -/
def isSimilarAddressSpec (existingAddress candidateAddress : String)
    (context : AddressContext) : Bool :=
  let existingNorm := normalizeAddress existingAddress
  let candidateNorm := normalizeAddress candidateAddress
  if existingNorm = "" || candidateNorm = "" then false
  else
    let cityGate : Bool :=
      match context.existingCity, context.candidateCity with
      | some ec, some cc =>
        if ec ≠ "" ∧ cc ≠ "" then
          let ne := normalizeString ec
          let nc := normalizeString cc
          ne ≠ "" ∧ nc ≠ "" ∧ ne ≠ nc
        else false
      | _, _ => false
    if cityGate then false
    else
      let pcGate : Bool :=
        match context.existingPostcode, context.candidatePostcode with
        | some ep, some cp => ep ≠ "" ∧ cp ≠ "" ∧ ep ≠ cp
        | _, _ => false
      if pcGate then false
      else
        (existingNorm = candidateNorm : Bool) ||
        (levenshtein existingNorm candidateNorm ≤ 4 : Bool) ||
        (match context.candidateLabel with
         | some lbl =>
           lbl ≠ "" &&
             (levenshtein existingNorm (normalizeAddress lbl) ≤ 4 : Bool)
         | none => false) ||
        ((tokenSet existingNorm).filter
            (fun t => t ∈ tokenSet candidateNorm)).length ≥
          Nat.max 1
            (Nat.min (tokenSet existingNorm).length
              (tokenSet candidateNorm).length - 1)

/-- A store row with every patchable column empty and a zero latitude. -/
def bddC2e : Homog.BddVenueRow :=
  { id := "v2", nom := "Bar Q", adresse := "", city := "Nantes"
    latitude := .num 0, longitude := .num 3
    osm_type := none, osm_id := none, osm_url := none, osm_tags_raw := none
    address := none, contact := none, osm_venue_type := none
    opening_hours := none, capacity := none, live_music := none
    website := none, phone := none, facebook := none, instagram := none
    source := none }

/-- A geocoder feature used by the batch fixtures. -/
def featC1 : BanFeature :=
  { longitude := 2, latitude := 1
    properties := { label := "1 rue y nantes", city := "nantes" } }

/-- A geocoded entry used by the dry-run counterexample. -/
def entC1 : GeocodedEntry :=
  { input := { nom := "bar x", adresse := "1 rue y", ville := "nantes" }
    feature := some featC1
    status := .ok }

/-- First entry of the duplicate-suppression witness ("Bar-A"). -/
def entC7a : GeocodedEntry :=
  { input := { nom := "Bar-A", adresse := "1 rue y", ville := "nantes" }
    feature := some featC1
    status := .ok }

/-- Second entry of the duplicate-suppression witness ("Bar A", the same
normalized name and address as the first, but not an exact
case-insensitive name match). -/
def entC7b : GeocodedEntry :=
  { input := { nom := "Bar A", adresse := "1 rue y", ville := "nantes" }
    feature := some featC1
    status := .ok }

/-- The OSM venue of the C8 witness. -/
def venueC8 : NormalizedOsmVenue :=
  { osm_type := .node, osm_id := 7, osm_url := "https://osm.example/node/7"
    name := "Bar Z", venueType := "bar", latitude := 0, longitude := 0
    adresse := "1 rue y nantes", city := "nantes" }

/-- A store row matching `venueC8` by case-insensitive name, address and
location, without OSM identity. -/
def rowC8 : OsmVenueRow :=
  { id := "r1", nom := "bar z", adresse := "1 rue y nantes"
    city := "nantes", latitude := 0, longitude := 0 }

/-- The OSM entry of the C8 witness. -/
def entryC8 : OsmEntry :=
  { status := .ok, venue := some venueC8 }

/-- A store row already carrying the first witness entry's data, used by
the duplicate-suppression witness. -/
def rowC7 : VenueRow :=
  { id := "r0", nom := "Bar-A", adresse := "1 rue y nantes"
    city := "nantes", latitude := 1, longitude := 2, barbars := some true }

/-- The initial OSM run state of the C8 witness: a store holding only
`rowC8`. -/
def stateC8 : OsmState := initOsmState ⟨[rowC8], 2⟩

/-!
The rational arithmetic behind `roundCoord` must reduce inside closed
test theorems, so the four irreducible `Rat` operations are made
semireducible for the remainder of this development.
-/
attribute [local semireducible] Rat.mul Rat.inv Rat.add Rat.sub

/-! ## Lemmas about the association-map model -/

theorem mapGet_map_replace {α : Type} (m : List (String × α)) (k : String)
    (v : α) :
    mapGet (m.map (fun p => if p.1 = k then (k, v) else p)) k
      = (mapGet m k).map (fun _ => v) := by
  induction m with
  | nil => rfl
  | cons p m ih =>
    unfold mapGet at ih ⊢
    by_cases hp : p.1 = k
    · simp [List.find?_cons, hp]
    · simp only [List.map_cons, if_neg hp]
      rw [List.find?_cons_of_neg _ (by simpa using hp),
        List.find?_cons_of_neg _ (by simpa using hp)]
      exact ih

theorem mapGet_append_single {α : Type} (m : List (String × α)) (k : String)
    (v : α) (h : mapGet m k = none) :
    mapGet (m ++ [(k, v)]) k = some v := by
  unfold mapGet at h ⊢
  induction m with
  | nil => simp
  | cons p m ih =>
    by_cases hp : p.1 = k
    · simp [List.find?_cons, hp] at h
    · rw [List.cons_append, List.find?_cons_of_neg _ (by simpa using hp)]
      rw [List.find?_cons_of_neg _ (by simpa using hp)] at h
      exact ih h

theorem mapGet_mapSet_self {α : Type} (m : List (String × α)) (k : String)
    (v : α) : mapGet (mapSet m k v) k = some v := by
  unfold mapSet
  by_cases hf : (m.find? (fun p => p.1 = k)).isSome
  · rw [if_pos hf, mapGet_map_replace]
    unfold mapGet
    rcases Option.isSome_iff_exists.1 hf with ⟨p, hp⟩
    simp [hp]
  · rw [if_neg hf]
    refine mapGet_append_single _ _ _ ?_
    unfold mapGet
    rcases Option.not_isSome_iff_eq_none.1 hf with hnone
    simp [hnone]

/-! ## C3: retry behavior of the resilient fetch clients -/

/-- C3 (code bug): the claim says a 429/5xx status is retried within a
3-attempt budget while any other non-2xx status fails immediately without
a retry. The retry budget and the exhaustion failure hold — a persistent
429 causes exactly 3 network calls in both clients and the failure is
raised to the caller — but the fail-fast half does not: in `src/lib/ban.ts`
the `throw` for a non-retryable status sits inside the `try`, so the
function's own `catch` retries it, and a persistent 404 causes 3 network
calls instead of 1; `src/osm/overpass.ts` likewise retries a persistent
404 for the full 3-call budget because the `throw` is caught by the
loop's own `catch`. -/
theorem fetch_clients_retry_nonretryable_status :
    (fetchWithRetry (fun _ => (NetOutcome.httpStatus 404 : NetOutcome BanResponse)) 0).2 = 3 ∧
    (fetchWithRetry (fun _ => (NetOutcome.httpStatus 404 : NetOutcome BanResponse)) 0).1 =
      Except.error (FetchErr.http 404) ∧
    (fetchWithRetry (fun _ => (NetOutcome.httpStatus 429 : NetOutcome BanResponse)) 0).2 = 3 ∧
    (fetchWithRetry (fun _ => (NetOutcome.httpStatus 429 : NetOutcome BanResponse)) 0).1 =
      Except.error (FetchErr.http 429) ∧
    (fetchOverpass (fun _ => (NetOutcome.httpStatus 404 : NetOutcome OverpassResponse)) 0).2 = 3 ∧
    (fetchOverpass (fun _ => (NetOutcome.httpStatus 404 : NetOutcome OverpassResponse)) 0).1 =
      Except.error (FetchErr.http 404) ∧
    (fetchOverpass (fun _ => (NetOutcome.httpStatus 429 : NetOutcome OverpassResponse)) 0).2 = 3 ∧
    (fetchOverpass (fun _ => (NetOutcome.httpStatus 429 : NetOutcome OverpassResponse)) 0).1 =
      Except.error (FetchErr.http 429) ∧
    (fetchWithRetry (fun _ => (NetOutcome.success (BanResponse.mk []))) 0).2 = 1 :=
  ⟨rfl, rfl, rfl, rfl, rfl, rfl, rfl, rfl, rfl⟩

/-! ## C5: cache determinism of `BanClient.geocode` -/

/-- C5: two sequential geocoder lookups with identical inputs issue
exactly one network call in total; the successful lookup's result
(including a null feature) is stored in the in-memory map and appended to
the cache file before returning, and the two returned feature values are
equal. -/
theorem banGeocode_cache_determinism
    (oracle : ℕ → NetOutcome BanResponse) (resp : BanResponse) (k : ℕ)
    (now : String) (s : BanClientState) (adresse ville : String)
    (postcode : Option String)
    (hmiss : mapGet s.cache (buildKey adresse ville postcode) = none)
    (hnet : oracle k = NetOutcome.success resp) :
    let r1 := banGeocode oracle k now s adresse ville postcode
    let line : CacheRecord :=
      ⟨buildKey adresse ville postcode, resp.features.head?, now⟩
    r1.1 = Except.ok (resp.features.head?, false) ∧
    r1.2.2 = 1 ∧
    mapGet r1.2.1.cache (buildKey adresse ville postcode) = some line ∧
    r1.2.1.file = s.file ++ [line] ∧
    (∀ (oracle2 : ℕ → NetOutcome BanResponse) (k2 : ℕ) (now2 : String),
      let r2 := banGeocode oracle2 k2 now2 r1.2.1 adresse ville postcode
      r2.1 = Except.ok (resp.features.head?, true) ∧
      r2.2.2 = 0 ∧ r2.2.1 = r1.2.1) := by
  have hfetch :
      fetchWithRetry oracle k = (Except.ok resp, 1) := by
    unfold fetchWithRetry fetchWithRetryAux
    rw [hnet]
  simp [banGeocode, hmiss, hfetch, mapGet_mapSet_self]

/-- Witness for C5 at a concrete empty-cache state and an oracle whose
response carries no feature (the explicit "no candidate" case). -/
theorem banGeocode_cache_determinism_witness :
    mapGet (BanClientState.mk [] []).cache (buildKey "1 rue x" "nantes" none) = none ∧
    ((fun _ => (NetOutcome.success (BanResponse.mk []) : NetOutcome BanResponse)) 0 =
      NetOutcome.success (BanResponse.mk [])) ∧
    (let r1 := banGeocode (fun _ => NetOutcome.success (BanResponse.mk [])) 0 "t0"
        (BanClientState.mk [] []) "1 rue x" "nantes" none
     let line : CacheRecord := ⟨buildKey "1 rue x" "nantes" none, none, "t0"⟩
     r1.1 = Except.ok (none, false) ∧
     r1.2.2 = 1 ∧
     mapGet r1.2.1.cache (buildKey "1 rue x" "nantes" none) = some line ∧
     r1.2.1.file = [] ++ [line] ∧
     (∀ (oracle2 : ℕ → NetOutcome BanResponse) (k2 : ℕ) (now2 : String),
       let r2 := banGeocode oracle2 k2 now2 r1.2.1 "1 rue x" "nantes" none
       r2.1 = Except.ok (none, true) ∧
       r2.2.2 = 0 ∧ r2.2.1 = r1.2.1)) :=
  ⟨rfl, rfl,
    banGeocode_cache_determinism
      (fun _ => NetOutcome.success (BanResponse.mk [])) (BanResponse.mk [])
      0 "t0" (BanClientState.mk [] []) "1 rue x" "nantes" none rfl rfl⟩

/-! ## C4: the administrative area resolver -/

/-- C4 (counterexample): on exactly the two "Paris" candidates of the
claim the resolver does select the 2,000,000-population candidate, but it
reports `ambiguous = true` — the exact-match pool still has two members —
where the claim says `ambiguous = false`. -/
theorem findAdminArea_paris_ambiguous_cex :
    (findAdminAreaFrom parisElements "Paris").selected.map popD =
      some 2000000 ∧
    (findAdminAreaFrom parisElements "Paris").ambiguous = true := by
  decide

/-- C4 (amended): the resolver selects, from the pool (restricted to
case-insensitive exact name matches when any exist), a candidate with the
highest population estimate, a missing population counting as 0; on the
two "Paris" candidates it selects the 2,000,000-population one and
reports `ambiguous = true`, because the exact-match pool still has two
members. -/
theorem findAdminArea_selects_max :
    (∀ (elements : List OverpassElement) (city : String)
       (sel : AreaCandidate),
       (findAdminAreaFrom elements city).selected = some sel →
       sel ∈ (findAdminAreaFrom elements city).candidates ∧
         ∀ c ∈ (findAdminAreaFrom elements city).candidates,
           popD c ≤ popD sel) ∧
    (findAdminAreaFrom parisElements "Paris").selected =
      some { id := 1, name := "Paris", adminLevel := some "8"
             population := some 2000000
             tags := [("name", "Paris"), ("admin_level", "8"),
                      ("population", "2000000")] } ∧
    (findAdminAreaFrom parisElements "Paris").ambiguous = true := by
  refine ⟨?_, by decide, by decide⟩
  intro elements city sel
  unfold findAdminAreaFrom
  by_cases hempty : (areaCandidatesOf elements).isEmpty
  · simp [hempty]
  · simp only [hempty, Bool.false_eq_true, if_false]
    intro hsel
    have hperm :=
      List.perm_insertionSort popGE (areaPool (areaCandidatesOf elements) city)
    have hsorted :=
      List.sorted_insertionSort popGE (areaPool (areaCandidatesOf elements) city)
    rcases hs : List.insertionSort popGE
        (areaPool (areaCandidatesOf elements) city) with _ | ⟨a, rest⟩
    · rw [hs] at hsel; simp at hsel
    · rw [hs] at hsel hperm hsorted
      simp only [List.head?_cons, Option.some.injEq] at hsel
      subst hsel
      constructor
      · exact hperm.mem_iff.1 (List.mem_cons_self _ _)
      · intro c hc
        rcases List.mem_cons.1 (hperm.mem_iff.2 hc) with h | h
        · simp [h]
        · exact List.rel_of_sorted_cons hsorted c h

/-- Witness for C4's amended theorem: applying the selection property at
the concrete "Paris" pool. -/
theorem findAdminArea_selects_max_witness :
    ((findAdminAreaFrom parisElements "Paris").selected =
      some { id := 1, name := "Paris", adminLevel := some "8"
             population := some 2000000
             tags := [("name", "Paris"), ("admin_level", "8"),
                      ("population", "2000000")] }) ∧
    ({ id := 1, name := "Paris", adminLevel := some "8"
       population := some 2000000
       tags := [("name", "Paris"), ("admin_level", "8"),
                ("population", "2000000")] } : AreaCandidate) ∈
      (findAdminAreaFrom parisElements "Paris").candidates ∧
    (∀ c ∈ (findAdminAreaFrom parisElements "Paris").candidates,
      popD c ≤ popD ({ id := 1, name := "Paris", adminLevel := some "8"
                       population := some 2000000
                       tags := [("name", "Paris"), ("admin_level", "8"),
                                ("population", "2000000")] } : AreaCandidate)) :=
  ⟨by decide,
    (findAdminArea_selects_max.1 parisElements "Paris" _ (by decide)).1,
    (findAdminArea_selects_max.1 parisElements "Paris" _ (by decide)).2⟩

/-! ## C2: minimality of the homogenization patch -/

/-- C2 (counterexample): `maybeAddressReplacement` puts `adresse` into the
patch although the store row's address is the non-empty string "Nantes"
(it merely equals the row's city), so a field of the patch did not have an
empty/null/zero value in the store row; and both coordinates are patched
for a row whose longitude is the ordinary number 2, merely because its
latitude is zero, refuting the claim's "the store's coordinates are
exactly zero or not-a-number" on its both-coordinates reading. -/
theorem buildPatch_overwrites_nonempty_address_cex :
    ((Homog.buildPatch bddC2 osmC2 "t0").adresse = some "12 rue de la paix" ∧
      bddC2.adresse = "Nantes" ∧ jsTrimStr bddC2.adresse ≠ "") ∧
    ((Homog.buildPatch bddC2lat osmC2 "t0").latitude = some (.num 1) ∧
      (Homog.buildPatch bddC2lat osmC2 "t0").longitude = some (.num 2) ∧
      bddC2lat.longitude = .num 2 ∧ bddC2lat.longitude ≠ .num 0 ∧
      bddC2lat.longitude ≠ .nan) := by
  decide

/-- C2 (amended): every metadata field present in a homogenization patch
had an empty/null/zero-equivalent value in the store row, with these
exceptions forced by the code: `adresse` may also appear when the
trimmed store address is non-empty but equals the store city and the
candidate supplies a different non-empty address; the coordinates are
patched as a pair with the candidate's values, exactly when at least one
of the store coordinates is zero or NaN; `source` receives the constant
marker exactly when the source column is empty; and `osm_last_sync_at`
(not a store column) carries the run timestamp exactly when the patch
just before the final `stripEmpty` is non-empty. -/
theorem buildPatch_minimality
    (bdd : Homog.BddVenueRow) (osm : Homog.OsmCandidate) (now : String) :
    ((Homog.buildPatch bdd osm now).osm_type.isSome →
      Homog.isEmptyStr bdd.osm_type) ∧
    ((Homog.buildPatch bdd osm now).osm_id.isSome →
      Homog.isEmptyNum bdd.osm_id) ∧
    ((Homog.buildPatch bdd osm now).osm_url.isSome →
      Homog.isEmptyStr bdd.osm_url) ∧
    ((Homog.buildPatch bdd osm now).osm_tags_raw.isSome →
      Homog.isEmptyObj bdd.osm_tags_raw) ∧
    ((Homog.buildPatch bdd osm now).address.isSome →
      Homog.isEmptyObj bdd.address) ∧
    ((Homog.buildPatch bdd osm now).contact.isSome →
      Homog.isEmptyObj bdd.contact) ∧
    ((Homog.buildPatch bdd osm now).osm_venue_type.isSome →
      Homog.isEmptyStr bdd.osm_venue_type) ∧
    ((Homog.buildPatch bdd osm now).opening_hours.isSome →
      Homog.isEmptyStr bdd.opening_hours) ∧
    ((Homog.buildPatch bdd osm now).capacity.isSome →
      Homog.isEmptyNum bdd.capacity) ∧
    ((Homog.buildPatch bdd osm now).live_music.isSome →
      Homog.isEmptyBool bdd.live_music) ∧
    ((Homog.buildPatch bdd osm now).website.isSome →
      Homog.isEmptyStr bdd.website) ∧
    ((Homog.buildPatch bdd osm now).phone.isSome →
      Homog.isEmptyStr bdd.phone) ∧
    ((Homog.buildPatch bdd osm now).facebook.isSome →
      Homog.isEmptyStr bdd.facebook) ∧
    ((Homog.buildPatch bdd osm now).instagram.isSome →
      Homog.isEmptyStr bdd.instagram) ∧
    ((Homog.buildPatch bdd osm now).source.isSome →
      Homog.isEmptyStr bdd.source) ∧
    ((Homog.buildPatch bdd osm now).adresse.isSome →
      jsTrimStr bdd.adresse = "" ∨
        (jsTrimStr bdd.adresse = bdd.city ∧ osm.adresse ≠ "" ∧
          osm.adresse ≠ bdd.city)) ∧
    ((Homog.buildPatch bdd osm now).latitude.isSome ↔
      (Homog.buildPatch bdd osm now).longitude.isSome) ∧
    ((Homog.buildPatch bdd osm now).latitude.isSome →
      bdd.latitude = .num 0 ∨ bdd.latitude = .nan ∨
        bdd.longitude = .num 0 ∨ bdd.longitude = .nan) ∧
    ((Homog.buildPatch bdd osm now).latitude.isSome ↔
      (bdd.latitude = .num 0 ∨ bdd.latitude = .nan ∨
        bdd.longitude = .num 0 ∨ bdd.longitude = .nan)) ∧
    ((bdd.latitude = .num 0 ∨ bdd.latitude = .nan ∨
        bdd.longitude = .num 0 ∨ bdd.longitude = .nan) →
      (Homog.buildPatch bdd osm now).latitude = some osm.latitude ∧
        (Homog.buildPatch bdd osm now).longitude = some osm.longitude) ∧
    ((Homog.buildPatch bdd osm now).source.isSome ↔
      Homog.isEmptyStr bdd.source) ∧
    ((Homog.buildPatch bdd osm now).source.isSome →
      (Homog.buildPatch bdd osm now).source = some "osm_seed") ∧
    ((Homog.buildPatch bdd osm now).osm_last_sync_at.isSome ↔
      (Homog.patchCoords bdd osm (Homog.basePatch bdd osm)).hasKey) ∧
    ((Homog.buildPatch bdd osm now).osm_last_sync_at.isSome →
      (Homog.buildPatch bdd osm now).osm_last_sync_at = some now) := by
  have hstr : ∀ q : Homog.Patch,
      (Homog.stripEmptyPatch q).osm_type = q.osm_type ∧
      (Homog.stripEmptyPatch q).osm_id = q.osm_id ∧
      (Homog.stripEmptyPatch q).osm_url = q.osm_url ∧
      (Homog.stripEmptyPatch q).osm_venue_type = q.osm_venue_type ∧
      (Homog.stripEmptyPatch q).opening_hours = q.opening_hours ∧
      (Homog.stripEmptyPatch q).capacity = q.capacity ∧
      (Homog.stripEmptyPatch q).live_music = q.live_music ∧
      (Homog.stripEmptyPatch q).website = q.website ∧
      (Homog.stripEmptyPatch q).phone = q.phone ∧
      (Homog.stripEmptyPatch q).facebook = q.facebook ∧
      (Homog.stripEmptyPatch q).instagram = q.instagram ∧
      (Homog.stripEmptyPatch q).adresse = q.adresse ∧
      (Homog.stripEmptyPatch q).latitude = q.latitude ∧
      (Homog.stripEmptyPatch q).longitude = q.longitude ∧
      (Homog.stripEmptyPatch q).source = q.source := by
    intro q
    unfold Homog.stripEmptyPatch
    exact ⟨rfl, rfl, rfl, rfl, rfl, rfl, rfl, rfl, rfl, rfl, rfl, rfl, rfl,
      rfl, rfl⟩
  have hchain : ∀ (F : Homog.Patch → Option String),
      (∀ q v, F { q with osm_last_sync_at := v } = F q) → True := fun _ _ =>
    trivial
  -- projections of the stamp and coordinate stages
  have hstamp : ∀ q : Homog.Patch,
      (Homog.stampSync now q).osm_type = q.osm_type ∧
      (Homog.stampSync now q).osm_id = q.osm_id ∧
      (Homog.stampSync now q).osm_url = q.osm_url ∧
      (Homog.stampSync now q).osm_tags_raw = q.osm_tags_raw ∧
      (Homog.stampSync now q).address = q.address ∧
      (Homog.stampSync now q).contact = q.contact ∧
      (Homog.stampSync now q).osm_venue_type = q.osm_venue_type ∧
      (Homog.stampSync now q).opening_hours = q.opening_hours ∧
      (Homog.stampSync now q).capacity = q.capacity ∧
      (Homog.stampSync now q).live_music = q.live_music ∧
      (Homog.stampSync now q).website = q.website ∧
      (Homog.stampSync now q).phone = q.phone ∧
      (Homog.stampSync now q).facebook = q.facebook ∧
      (Homog.stampSync now q).instagram = q.instagram ∧
      (Homog.stampSync now q).adresse = q.adresse ∧
      (Homog.stampSync now q).latitude = q.latitude ∧
      (Homog.stampSync now q).longitude = q.longitude ∧
      (Homog.stampSync now q).source = q.source := by
    intro q
    unfold Homog.stampSync
    split <;>
      exact ⟨rfl, rfl, rfl, rfl, rfl, rfl, rfl, rfl, rfl, rfl, rfl, rfl,
        rfl, rfl, rfl, rfl, rfl, rfl⟩
  have hcoords : ∀ q : Homog.Patch,
      (Homog.patchCoords bdd osm q).osm_type = q.osm_type ∧
      (Homog.patchCoords bdd osm q).osm_id = q.osm_id ∧
      (Homog.patchCoords bdd osm q).osm_url = q.osm_url ∧
      (Homog.patchCoords bdd osm q).osm_tags_raw = q.osm_tags_raw ∧
      (Homog.patchCoords bdd osm q).address = q.address ∧
      (Homog.patchCoords bdd osm q).contact = q.contact ∧
      (Homog.patchCoords bdd osm q).osm_venue_type = q.osm_venue_type ∧
      (Homog.patchCoords bdd osm q).opening_hours = q.opening_hours ∧
      (Homog.patchCoords bdd osm q).capacity = q.capacity ∧
      (Homog.patchCoords bdd osm q).live_music = q.live_music ∧
      (Homog.patchCoords bdd osm q).website = q.website ∧
      (Homog.patchCoords bdd osm q).phone = q.phone ∧
      (Homog.patchCoords bdd osm q).facebook = q.facebook ∧
      (Homog.patchCoords bdd osm q).instagram = q.instagram ∧
      (Homog.patchCoords bdd osm q).adresse = q.adresse ∧
      (Homog.patchCoords bdd osm q).source = q.source := by
    intro q
    simp only [Homog.patchCoords]
    split <;>
      exact ⟨rfl, rfl, rfl, rfl, rfl, rfl, rfl, rfl, rfl, rfl, rfl, rfl,
        rfl, rfl, rfl, rfl⟩
  have hlat : ∀ q : Homog.Patch,
      (Homog.patchCoords bdd osm q).latitude =
        (if (bdd.latitude = .num 0 ∨ bdd.latitude = .nan) ∨
            bdd.longitude = .num 0 ∨ bdd.longitude = .nan then
          some osm.latitude
        else q.latitude) ∧
      (Homog.patchCoords bdd osm q).longitude =
        (if (bdd.latitude = .num 0 ∨ bdd.latitude = .nan) ∨
            bdd.longitude = .num 0 ∨ bdd.longitude = .nan then
          some osm.longitude
        else q.longitude) := by
    intro q
    simp only [Homog.patchCoords]
    split <;> simp_all
  have hobj : ∀ q : Homog.Patch,
      ((Homog.stripEmptyPatch q).osm_tags_raw.isSome →
        q.osm_tags_raw.isSome) ∧
      ((Homog.stripEmptyPatch q).address.isSome → q.address.isSome) ∧
      ((Homog.stripEmptyPatch q).contact.isSome → q.contact.isSome) := by
    intro q
    refine ⟨?_, ?_, ?_⟩
    · intro h
      simp only [Homog.stripEmptyPatch] at h
      rcases hq : q.osm_tags_raw with _ | o
      · rw [hq] at h; simp at h
      · simp [hq]
    · intro h
      simp only [Homog.stripEmptyPatch] at h
      rcases hq : q.address with _ | o
      · rw [hq] at h; simp at h
      · simp [hq]
    · intro h
      simp only [Homog.stripEmptyPatch] at h
      rcases hq : q.contact with _ | o
      · rw [hq] at h; simp at h
      · simp [hq]
  set base := Homog.basePatch bdd osm with hbase
  set afterCoords := Homog.patchCoords bdd osm base with hac
  set afterStamp := Homog.stampSync now afterCoords with has
  have hbuild : Homog.buildPatch bdd osm now =
      Homog.stripEmptyPatch afterStamp := rfl
  have hstrSync : ∀ q : Homog.Patch,
      (Homog.stripEmptyPatch q).osm_last_sync_at = q.osm_last_sync_at := by
    intro q
    unfold Homog.stripEmptyPatch
    rfl
  have hcoordsSync : ∀ q : Homog.Patch,
      (Homog.patchCoords bdd osm q).osm_last_sync_at = q.osm_last_sync_at := by
    intro q
    simp only [Homog.patchCoords]
    split <;> rfl
  have hacSync : afterCoords.osm_last_sync_at = none := by
    rw [hac, hcoordsSync base, hbase]
    rfl
  have hstampSyncAt : (Homog.stampSync now afterCoords).osm_last_sync_at =
      (if afterCoords.hasKey then some now else none) := by
    unfold Homog.stampSync
    by_cases hk : afterCoords.hasKey = true
    · rw [if_pos hk, if_pos hk]
    · rw [if_neg hk, if_neg hk]
      exact hacSync
  refine ⟨?_, ?_, ?_, ?_, ?_, ?_, ?_, ?_, ?_, ?_, ?_, ?_, ?_, ?_, ?_, ?_,
    ?_, ?_, ?_, ?_, ?_, ?_, ?_, ?_⟩
  -- osm_type
  · intro h
    rw [hbuild, (hstr afterStamp).1, (hstamp afterCoords).1,
      (hcoords base).1] at h
    revert h
    unfold_let base
    unfold Homog.basePatch
    simp only
    split <;> simp_all
  -- osm_id
  · intro h
    rw [hbuild, (hstr afterStamp).2.1, (hstamp afterCoords).2.1,
      (hcoords base).2.1] at h
    revert h
    unfold_let base
    unfold Homog.basePatch
    simp only
    split <;> simp_all
  -- osm_url
  · intro h
    rw [hbuild, (hstr afterStamp).2.2.1, (hstamp afterCoords).2.2.1,
      (hcoords base).2.2.1] at h
    revert h
    unfold_let base
    unfold Homog.basePatch
    simp only
    split <;> simp_all
  -- osm_tags_raw
  · intro h
    have h1 := (hobj afterStamp).1 (hbuild ▸ h)
    rw [(hstamp afterCoords).2.2.2.1, (hcoords base).2.2.2.1] at h1
    revert h1
    unfold_let base
    unfold Homog.basePatch
    simp only
    split <;> simp_all
  -- address
  · intro h
    have h1 := (hobj afterStamp).2.1 (hbuild ▸ h)
    rw [(hstamp afterCoords).2.2.2.2.1, (hcoords base).2.2.2.2.1] at h1
    revert h1
    unfold_let base
    unfold Homog.basePatch
    simp only
    split <;> simp_all
  -- contact
  · intro h
    have h1 := (hobj afterStamp).2.2 (hbuild ▸ h)
    rw [(hstamp afterCoords).2.2.2.2.2.1, (hcoords base).2.2.2.2.2.1] at h1
    revert h1
    unfold_let base
    unfold Homog.basePatch
    simp only
    split <;> simp_all
  -- osm_venue_type
  · intro h
    rw [hbuild, (hstr afterStamp).2.2.2.1,
      (hstamp afterCoords).2.2.2.2.2.2.1,
      (hcoords base).2.2.2.2.2.2.1] at h
    revert h
    unfold_let base
    unfold Homog.basePatch
    simp only
    split <;> simp_all
  -- opening_hours
  · intro h
    rw [hbuild, (hstr afterStamp).2.2.2.2.1,
      (hstamp afterCoords).2.2.2.2.2.2.2.1,
      (hcoords base).2.2.2.2.2.2.2.1] at h
    revert h
    unfold_let base
    unfold Homog.basePatch
    simp only
    split <;> simp_all
  -- capacity
  · intro h
    rw [hbuild, (hstr afterStamp).2.2.2.2.2.1,
      (hstamp afterCoords).2.2.2.2.2.2.2.2.1,
      (hcoords base).2.2.2.2.2.2.2.2.1] at h
    revert h
    unfold_let base
    unfold Homog.basePatch
    simp only
    split <;> simp_all
  -- live_music
  · intro h
    rw [hbuild, (hstr afterStamp).2.2.2.2.2.2.1,
      (hstamp afterCoords).2.2.2.2.2.2.2.2.2.1,
      (hcoords base).2.2.2.2.2.2.2.2.2.1] at h
    revert h
    unfold_let base
    unfold Homog.basePatch
    simp only
    split <;> simp_all
  -- website
  · intro h
    rw [hbuild, (hstr afterStamp).2.2.2.2.2.2.2.1,
      (hstamp afterCoords).2.2.2.2.2.2.2.2.2.2.1,
      (hcoords base).2.2.2.2.2.2.2.2.2.2.1] at h
    revert h
    unfold_let base
    unfold Homog.basePatch
    simp only
    split <;> simp_all
  -- phone
  · intro h
    rw [hbuild, (hstr afterStamp).2.2.2.2.2.2.2.2.1,
      (hstamp afterCoords).2.2.2.2.2.2.2.2.2.2.2.1,
      (hcoords base).2.2.2.2.2.2.2.2.2.2.2.1] at h
    revert h
    unfold_let base
    unfold Homog.basePatch
    simp only
    split <;> simp_all
  -- facebook
  · intro h
    rw [hbuild, (hstr afterStamp).2.2.2.2.2.2.2.2.2.1,
      (hstamp afterCoords).2.2.2.2.2.2.2.2.2.2.2.2.1,
      (hcoords base).2.2.2.2.2.2.2.2.2.2.2.2.1] at h
    revert h
    unfold_let base
    unfold Homog.basePatch
    simp only
    split <;> simp_all
  -- instagram
  · intro h
    rw [hbuild, (hstr afterStamp).2.2.2.2.2.2.2.2.2.2.1,
      (hstamp afterCoords).2.2.2.2.2.2.2.2.2.2.2.2.2.1,
      (hcoords base).2.2.2.2.2.2.2.2.2.2.2.2.2.1] at h
    revert h
    unfold_let base
    unfold Homog.basePatch
    simp only
    split <;> simp_all
  -- source
  · intro h
    rw [hbuild, (hstr afterStamp).2.2.2.2.2.2.2.2.2.2.2.2.2.2,
      (hstamp afterCoords).2.2.2.2.2.2.2.2.2.2.2.2.2.2.2.2.2,
      (hcoords base).2.2.2.2.2.2.2.2.2.2.2.2.2.2.2] at h
    revert h
    unfold_let base
    unfold Homog.basePatch
    simp only
    split <;> simp_all
  -- adresse
  · intro h
    rw [hbuild, (hstr afterStamp).2.2.2.2.2.2.2.2.2.2.2.1,
      (hstamp afterCoords).2.2.2.2.2.2.2.2.2.2.2.2.2.2.1,
      (hcoords base).2.2.2.2.2.2.2.2.2.2.2.2.2.2.1] at h
    revert h
    unfold_let base
    unfold Homog.basePatch
    simp only
    rcases heq : Homog.maybeAddressReplacement bdd osm with _ | a
    · simp
    · intro h
      simp only [Homog.maybeAddressReplacement] at heq
      split at heq
      · left; assumption
      · split at heq
        · right
          next hcond =>
            exact ⟨hcond.1, hcond.2.1, hcond.2.2⟩
        · simp at heq
  -- latitude isSome iff longitude isSome
  · have hbl : base.latitude = none := by rw [hbase]; rfl
    have hbl2 : base.longitude = none := by rw [hbase]; rfl
    rw [hbuild, (hstr afterStamp).2.2.2.2.2.2.2.2.2.2.2.2.1,
      (hstr afterStamp).2.2.2.2.2.2.2.2.2.2.2.2.2.1,
      (hstamp afterCoords).2.2.2.2.2.2.2.2.2.2.2.2.2.2.2.1,
      (hstamp afterCoords).2.2.2.2.2.2.2.2.2.2.2.2.2.2.2.2.1,
      (hlat base).1, (hlat base).2, hbl, hbl2]
    split <;> simp
  -- latitude implies a zero/NaN store coordinate
  · intro h
    have hbl : base.latitude = none := by rw [hbase]; rfl
    rw [hbuild, (hstr afterStamp).2.2.2.2.2.2.2.2.2.2.2.2.1,
      (hstamp afterCoords).2.2.2.2.2.2.2.2.2.2.2.2.2.2.2.1,
      (hlat base).1, hbl] at h
    revert h
    split
    · next hcond => intro _; tauto
    · simp
  -- latitude is present exactly when a store coordinate is zero/NaN
  · have hbl : base.latitude = none := by rw [hbase]; rfl
    rw [hbuild, (hstr afterStamp).2.2.2.2.2.2.2.2.2.2.2.2.1,
      (hstamp afterCoords).2.2.2.2.2.2.2.2.2.2.2.2.2.2.2.1,
      (hlat base).1, hbl]
    split_ifs with hc
    · simp only [Option.isSome_some]
      exact ⟨fun _ => by tauto, fun _ => by trivial⟩
    · simp only [Option.isSome_none]
      exact ⟨fun h => absurd h Bool.false_ne_true,
        fun hd => absurd (by tauto) hc⟩
  -- and then both coordinates carry the candidate values
  · intro hd
    have hbl : base.latitude = none := by rw [hbase]; rfl
    have hbl2 : base.longitude = none := by rw [hbase]; rfl
    rw [hbuild, (hstr afterStamp).2.2.2.2.2.2.2.2.2.2.2.2.1,
      (hstr afterStamp).2.2.2.2.2.2.2.2.2.2.2.2.2.1,
      (hstamp afterCoords).2.2.2.2.2.2.2.2.2.2.2.2.2.2.2.1,
      (hstamp afterCoords).2.2.2.2.2.2.2.2.2.2.2.2.2.2.2.2.1,
      (hlat base).1, (hlat base).2, hbl, hbl2]
    split_ifs with hc
    · exact ⟨rfl, rfl⟩
    · exact absurd (by tauto) hc
  -- source is stamped exactly on an empty source column
  · rw [hbuild, (hstr afterStamp).2.2.2.2.2.2.2.2.2.2.2.2.2.2,
      (hstamp afterCoords).2.2.2.2.2.2.2.2.2.2.2.2.2.2.2.2.2,
      (hcoords base).2.2.2.2.2.2.2.2.2.2.2.2.2.2.2]
    unfold_let base
    unfold Homog.basePatch
    simp only
    split_ifs with hc
    · simp [hc]
    · simp [hc]
  -- and its value is the constant marker
  · intro h
    rw [hbuild, (hstr afterStamp).2.2.2.2.2.2.2.2.2.2.2.2.2.2,
      (hstamp afterCoords).2.2.2.2.2.2.2.2.2.2.2.2.2.2.2.2.2,
      (hcoords base).2.2.2.2.2.2.2.2.2.2.2.2.2.2.2] at h ⊢
    revert h
    unfold_let base
    unfold Homog.basePatch
    simp only
    split_ifs with hc
    · exact fun _ => rfl
    · exact fun h => absurd h (by simp)
  -- the sync stamp is present exactly when the pre-strip patch has a key
  · rw [hbuild, hstrSync afterStamp, has, hstampSyncAt]
    split_ifs with hk
    · simp only [Option.isSome_some]
      exact ⟨fun _ => hk, fun _ => by trivial⟩
    · simp only [Option.isSome_none]
      exact ⟨fun h => absurd h Bool.false_ne_true, fun h2 => absurd h2 hk⟩
  -- and then its value is the run timestamp
  · intro h
    rw [hbuild, hstrSync afterStamp, has, hstampSyncAt] at h ⊢
    split_ifs at h ⊢ with hk
    · rfl
    · simp at h

/-- Witness for C2's amended theorem: on a row with an empty address and a
zero latitude, the patch proposes the candidate address and both
coordinates (with the candidate values), and the sync stamp carries the
run timestamp. -/
theorem buildPatch_minimality_witness :
    (jsTrimStr bddC2e.adresse = "" ∨
      (jsTrimStr bddC2e.adresse = bddC2e.city ∧ osmC2.adresse ≠ "" ∧
        osmC2.adresse ≠ bddC2e.city)) ∧
    (bddC2e.latitude = .num 0 ∨ bddC2e.latitude = .nan ∨
      bddC2e.longitude = .num 0 ∨ bddC2e.longitude = .nan) ∧
    ((Homog.buildPatch bddC2e osmC2 "t0").latitude = some osmC2.latitude ∧
      (Homog.buildPatch bddC2e osmC2 "t0").longitude =
        some osmC2.longitude) ∧
    (Homog.buildPatch bddC2e osmC2 "t0").osm_last_sync_at = some "t0" :=
  ⟨(buildPatch_minimality bddC2e osmC2 "t0").2.2.2.2.2.2.2.2.2.2.2.2.2.2.2.1
      (by decide),
    (buildPatch_minimality bddC2e osmC2
        "t0").2.2.2.2.2.2.2.2.2.2.2.2.2.2.2.2.2.1
      (by decide),
    (buildPatch_minimality bddC2e osmC2
        "t0").2.2.2.2.2.2.2.2.2.2.2.2.2.2.2.2.2.2.2.1
      (by decide),
    (buildPatch_minimality bddC2e osmC2
        "t0").2.2.2.2.2.2.2.2.2.2.2.2.2.2.2.2.2.2.2.2.2.2.2
      (by decide)⟩

/-! ## C6: the address-similarity predicate -/

/-- C6 (counterexample): with two empty addresses and an empty context,
the normalized strings are (trivially) equal and no city or postcode gate
applies, so the claim says the predicate returns true; the code's
empty-normalization guard returns false. -/
theorem isSimilarAddress_empty_cex :
    isSimilarAddress "" "" {} = false ∧
    normalizeAddress "" = normalizeAddress "" := by
  decide

/-- C6 (amended): `isSimilarAddress` returns false when either address
normalizes to empty; else false when both sides carry a non-empty city
whose normalizations are non-empty and differ; else false when both sides
carry a non-empty postcode and the postcodes differ; otherwise it returns
true exactly when the normalized strings are equal, or their edit
distance is ≤ 4, or a non-empty candidate label is provided whose
normalization is within edit distance 4, or the token-set intersection
size is at least max(1, min(tokenCountA, tokenCountB) − 1). -/
theorem isSimilarAddress_spec
    (existingAddress candidateAddress : String) (context : AddressContext) :
    isSimilarAddress existingAddress candidateAddress context =
      isSimilarAddressSpec existingAddress candidateAddress context := by
  unfold isSimilarAddress isSimilarAddressSpec
  simp only
  split
  · rfl
  · split
    · rfl
    · split
      · rfl
      · by_cases h1 :
          normalizeAddress existingAddress = normalizeAddress candidateAddress
        · simp [h1]
        · simp only [h1, if_false, decide_eq_true_eq]
          by_cases h2 : levenshtein (normalizeAddress existingAddress)
              (normalizeAddress candidateAddress) ≤ 4
          · simp [h1, h2]
          · simp only [h2, if_false]
            rcases context.candidateLabel with _ | lbl
            · simp [h1, h2]
            · by_cases h3 : lbl = ""
              · simp [h1, h2, h3]
              · by_cases h4 : levenshtein (normalizeAddress existingAddress)
                    (normalizeAddress lbl) ≤ 4
                · simp [h1, h2, h3, h4]
                · simp [h1, h2, h3, h4]

/-! ## C9: symmetry of the similarity primitives -/

theorem min3_comm12 (x y z : ℕ) : min3 x y z = min3 y x z := by
  unfold min3
  exact congrArg (fun t => Nat.min t z) (Nat.min_comm x y)

theorem levList_symm (xs ys : List Char) : levList xs ys = levList ys xs := by
  induction xs generalizing ys with
  | nil => cases ys <;> simp [levList]
  | cons x xs ih =>
    induction ys with
    | nil => simp [levList]
    | cons y ys ih2 =>
      simp only [levList]
      rw [ih (y :: ys), ih2, ih ys, min3_comm12]
      have hc : (if x = y then 0 else 1) = (if y = x then 0 else 1) := by
        by_cases h : x = y <;> simp [h, Ne.symm, eq_comm]
      rw [hc]

theorem levenshtein_symm (a b : String) :
    levenshtein a b = levenshtein b a := by
  unfold levenshtein
  by_cases hab : a = b
  · simp [hab]
  · have hba : ¬ b = a := fun h => hab h.symm
    by_cases ha : a.data.length = 0 <;> by_cases hb : b.data.length = 0
    · refine absurd ?_ hab
      have h1 := List.length_eq_zero.1 ha
      have h2 := List.length_eq_zero.1 hb
      cases a; cases b; simp_all
    · rw [if_neg hab, if_neg hba, if_pos ha, if_neg hb, if_pos ha]
    · rw [if_neg hab, if_neg hba, if_neg ha, if_pos hb, if_pos hb]
    · rw [if_neg hab, if_neg hba, if_neg ha, if_neg hb, if_neg hb,
        if_neg ha, levList_symm]

/-- C9: `isSimilarName` is symmetric, `levenshtein` is symmetric, and
`levenshtein(a, a) = 0`. -/
theorem similarity_symmetry (a b : String) :
    isSimilarName a b = isSimilarName b a ∧
    levenshtein a b = levenshtein b a ∧
    levenshtein a a = 0 := by
  refine ⟨?_, levenshtein_symm a b, by simp [levenshtein]⟩
  unfold isSimilarName
  simp only
  by_cases hA : normalizeString a = ""
  · by_cases hB : normalizeString b = "" <;> simp [hA, hB]
  · by_cases hB : normalizeString b = ""
    · simp [hA, hB]
    · simp only [hA, hB, Bool.or_false, Bool.false_or, if_false,
        decide_eq_true_eq]
      by_cases hEq : normalizeString a = normalizeString b
      · simp [hEq]
      · have hEq2 : ¬ normalizeString b = normalizeString a :=
          fun h => hEq h.symm
        simp only [hEq, hEq2, if_false]
        rw [Bool.or_comm (includes (normalizeString a) (normalizeString b))]
        split
        · rfl
        · rw [levenshtein_symm]

/-! ## C10: internal consistency of `normalizeName` -/

theorem wsplitAux_tokens (l : List Char) :
    ∀ (acc : List Char), (∀ c ∈ acc, isWsChar c = false) →
      ∀ t ∈ Utils.wsplitAux acc l, t ≠ [] ∧ ∀ c ∈ t, isWsChar c = false := by
  induction l with
  | nil =>
    intro acc hacc t ht
    unfold Utils.wsplitAux at ht
    split at ht
    · simp at ht
    · next hne =>
      simp only [List.mem_singleton] at ht
      subst ht
      refine ⟨?_, ?_⟩
      · intro h
        apply hne
        rw [List.isEmpty_iff, ← List.reverse_eq_nil_iff, h]
      · intro c hc
        exact hacc c (List.mem_reverse.1 hc)
  | cons c cs ih =>
    intro acc hacc t ht
    unfold Utils.wsplitAux at ht
    split at ht
    · split at ht
      · exact ih [] (by simp) t ht
      · next hne =>
        rcases List.mem_cons.1 ht with h | h
        · subst h
          refine ⟨?_, ?_⟩
          · intro h
            apply hne
            rw [List.isEmpty_iff, ← List.reverse_eq_nil_iff, h]
          · intro d hd
            exact hacc d (List.mem_reverse.1 hd)
        · exact ih [] (by simp) t h
    · next hc =>
      refine ih (c :: acc) ?_ t ht
      intro d hd
      rcases List.mem_cons.1 hd with rfl | hd
      · simpa using hc
      · exact hacc d hd

theorem mem_of_mem_jsTrim {l : List Char} {c : Char} (h : c ∈ jsTrim l) :
    c ∈ l := by
  unfold jsTrim at h
  have h1 := List.mem_reverse.1 h
  have h2 := (List.dropWhile_sublist isWsChar).subset h1
  have h3 := List.mem_reverse.1 h2
  exact (List.dropWhile_sublist isWsChar).subset h3

theorem joinSp_shape (toks : List (List Char))
    (h : ∀ t ∈ toks, t ≠ [] ∧ ∀ c ∈ t, isWsChar c = false) :
    toks = [] ∨
      ((∃ c rest, joinSp toks = c :: rest ∧ isWsChar c = false) ∧
        (∃ l c, joinSp toks = l ++ [c] ∧ isWsChar c = false)) := by
  induction toks with
  | nil => exact Or.inl rfl
  | cons t ts ih =>
    right
    have ht := h t (List.mem_cons_self _ _)
    obtain ⟨c0, rest0, rfl⟩ : ∃ c0 rest0, t = c0 :: rest0 := by
      rcases t with _ | ⟨c0, rest0⟩
      · exact absurd rfl ht.1
      · exact ⟨c0, rest0, rfl⟩
    rcases ts with _ | ⟨t2, ts'⟩
    · refine ⟨⟨c0, rest0, rfl, ht.2 c0 (by simp)⟩, ?_⟩
      rcases List.eq_nil_or_concat (c0 :: rest0) with h0 | ⟨l, b, hl⟩
      · simp at h0
      · refine ⟨l, b, ?_, ht.2 b (by rw [hl, List.concat_eq_append]; simp)⟩
        show c0 :: rest0 = l ++ [b]
        rw [hl, List.concat_eq_append]
    · have hts := ih (fun u hu => h u (List.mem_cons_of_mem _ hu))
      rcases hts with h0 | ⟨_, ⟨l, c', heq', hc'⟩⟩
      · simp at h0
      · have hjoin : joinSp ((c0 :: rest0) :: t2 :: ts') =
            (c0 :: rest0) ++ ' ' :: joinSp (t2 :: ts') := rfl
        refine ⟨⟨c0, rest0 ++ ' ' :: joinSp (t2 :: ts'), by simp [hjoin],
          ht.2 c0 (by simp)⟩, ?_⟩
        refine ⟨(c0 :: rest0) ++ ' ' :: l, c', ?_, hc'⟩
        rw [hjoin, heq']
        simp

theorem jsTrim_joinSp (toks : List (List Char))
    (h : ∀ t ∈ toks, t ≠ [] ∧ ∀ c ∈ t, isWsChar c = false) :
    jsTrim (joinSp toks) = joinSp toks := by
  rcases joinSp_shape toks h with h0 | ⟨⟨c, rest, heq, hc⟩, ⟨l, c', heq', hc'⟩⟩
  · rw [h0]; rfl
  · have h1 : List.dropWhile isWsChar (joinSp toks) = joinSp toks := by
      rw [heq]
      exact List.dropWhile_cons_of_neg (by simp [hc])
    have h2 : List.dropWhile isWsChar (joinSp toks).reverse =
        (joinSp toks).reverse := by
      rw [heq', List.reverse_append]
      simp only [List.reverse_cons, List.reverse_nil, List.nil_append,
        List.singleton_append]
      exact List.dropWhile_cons_of_neg (by simp [hc'])
    unfold jsTrim
    rw [h1, h2, List.reverse_reverse]

theorem joinTokens_data (toks : List String) :
    (joinTokens toks).data = joinSp (toks.map String.data) := by
  induction toks with
  | nil => rfl
  | cons t ts ih =>
    rcases ts with _ | ⟨t2, ts'⟩
    · rfl
    · show (t ++ " " ++ joinTokens (t2 :: ts')).data = _
      rw [String.data_append, String.data_append, ih]
      rw [show joinSp ((t :: t2 :: ts').map String.data) =
        t.data ++ ' ' :: joinSp ((t2 :: ts').map String.data) from rfl]
      rw [show (" " : String).data = [' '] from rfl]
      simp

theorem joinTokens_eq_joinSp (toks : List String) :
    joinTokens toks = ⟨joinSp (toks.map String.data)⟩ :=
  String.ext (joinTokens_data toks)

/-- C10: the record returned by `normalizeName` is internally consistent:
`normalized` is exactly the token list joined with single spaces, and
every token is non-empty, free of whitespace, and not a stopword. -/
theorem normalizeName_invariants (s : String) :
    (Utils.normalizeName s).normalized =
      joinTokens (Utils.normalizeName s).tokens ∧
    ∀ t ∈ (Utils.normalizeName s).tokens,
      t ≠ "" ∧ (∀ c ∈ t.data, isWsChar c = false) ∧
        Utils.STOPWORDS.contains t = false := by
  simp only [Utils.normalizeName]
  split
  · exact ⟨rfl, by simp⟩
  · simp only
    have htok : ∀ t ∈ (((Utils.wsplit
          (String.data ⟨jsTrim (Utils.elide (collapseNonWord
            (s.data.map foldChar)))⟩)).map
            (fun t => (⟨jsTrim t⟩ : String))).filter
          (fun t => t ≠ "" && !(Utils.STOPWORDS.contains t))),
        t ≠ "" ∧ (∀ c ∈ t.data, isWsChar c = false) ∧
          Utils.STOPWORDS.contains t = false := by
      intro t ht
      have hmem := List.mem_filter.1 ht
      have hpred := hmem.2
      simp only [Bool.and_eq_true, Bool.not_eq_true', decide_eq_true_eq] at hpred
      obtain ⟨rawTok, hraw, hmk⟩ := List.mem_map.1 hmem.1
      refine ⟨hpred.1, ?_, hpred.2⟩
      intro c hclaim
      have hdata : t.data = jsTrim rawTok := by rw [← hmk]
      rw [hdata] at hclaim
      have hrawp := wsplitAux_tokens _ [] (by simp) rawTok hraw
      exact hrawp.2 c (mem_of_mem_jsTrim hclaim)
    refine ⟨?_, htok⟩
    rw [joinTokens_eq_joinSp]
    apply String.ext
    show jsTrim (joinSp _) = joinSp _
    apply jsTrim_joinSp
    intro u hu
    obtain ⟨t, htmem, rfl⟩ := List.mem_map.1 hu
    obtain ⟨hne, hws, _⟩ := htok t htmem
    refine ⟨?_, hws⟩
    intro h0
    apply hne
    apply String.ext
    rw [h0]

/-- Witness for C10 at the concrete input "Le Central Bar" (whose only
surviving token is "central"). -/
theorem normalizeName_invariants_witness :
    (Utils.normalizeName "Le Central Bar").normalized =
      joinTokens (Utils.normalizeName "Le Central Bar").tokens ∧
    "central" ∈ (Utils.normalizeName "Le Central Bar").tokens ∧
    ("central" ≠ "" ∧ (∀ c ∈ "central".data, isWsChar c = false) ∧
      Utils.STOPWORDS.contains "central" = false) :=
  ⟨(normalizeName_invariants "Le Central Bar").1, by decide,
    (normalizeName_invariants "Le Central Bar").2 "central" (by decide)⟩

/-! ## C1: the dry-run guarantee -/

theorem processGeoEntry_dry_no_mutation (s : GeoState) (e : GeocodedEntry) :
    (processGeoEntry true s e).mutations = s.mutations ∧
    (processGeoEntry true s e).store = s.store := by
  unfold processGeoEntry
  rcases e with ⟨inp, feat, stat, reason⟩
  cases stat <;> cases feat
  all_goals try exact ⟨rfl, rfl⟩
  · simp only []
    repeat' split
    all_goals first | exact ⟨rfl, rfl⟩ | simp_all

theorem processGeoEntry_dry_same_observables (s : GeoState)
    (e : GeocodedEntry) :
    (processGeoEntry true s e).recs = (processGeoEntry false s e).recs ∧
    (processGeoEntry true s e).confs = (processGeoEntry false s e).confs ∧
    (processGeoEntry true s e).dups = (processGeoEntry false s e).dups ∧
    (processGeoEntry true s e).cache = (processGeoEntry false s e).cache ∧
    (processGeoEntry true s e).inserted = (processGeoEntry false s e).inserted ∧
    (processGeoEntry true s e).updated = (processGeoEntry false s e).updated ∧
    (processGeoEntry true s e).conflicts =
      (processGeoEntry false s e).conflicts ∧
    (processGeoEntry true s e).duplicates =
      (processGeoEntry false s e).duplicates ∧
    (processGeoEntry true s e).errors = (processGeoEntry false s e).errors := by
  unfold processGeoEntry
  rcases e with ⟨inp, feat, stat, reason⟩
  cases stat <;> cases feat
  all_goals try exact ⟨rfl, rfl, rfl, rfl, rfl, rfl, rfl, rfl, rfl⟩
  · simp only []
    repeat' split
    all_goals first
      | exact ⟨rfl, rfl, rfl, rfl, rfl, rfl, rfl, rfl, rfl⟩
      | simp_all

theorem processOsmEntry_dry_no_mutation
    (closeGate : NormalizedOsmVenue → OsmVenueRow → Bool) (now : String)
    (s : OsmState) (e : OsmEntry) :
    (processOsmEntry closeGate true now s e).mutations = s.mutations ∧
    (processOsmEntry closeGate true now s e).store = s.store := by
  unfold processOsmEntry
  rcases e with ⟨stat, venue, reason⟩
  cases stat <;> cases venue
  all_goals try exact ⟨rfl, rfl⟩
  · simp only []
    repeat' split
    all_goals first | exact ⟨rfl, rfl⟩ | simp_all

theorem processOsmEntry_dry_same_observables
    (closeGate : NormalizedOsmVenue → OsmVenueRow → Bool) (now : String)
    (s : OsmState) (e : OsmEntry) :
    (processOsmEntry closeGate true now s e).recs =
      (processOsmEntry closeGate false now s e).recs ∧
    (processOsmEntry closeGate true now s e).confs =
      (processOsmEntry closeGate false now s e).confs ∧
    (processOsmEntry closeGate true now s e).inserted =
      (processOsmEntry closeGate false now s e).inserted ∧
    (processOsmEntry closeGate true now s e).updated =
      (processOsmEntry closeGate false now s e).updated ∧
    (processOsmEntry closeGate true now s e).conflicts =
      (processOsmEntry closeGate false now s e).conflicts ∧
    (processOsmEntry closeGate true now s e).errors =
      (processOsmEntry closeGate false now s e).errors := by
  unfold processOsmEntry
  rcases e with ⟨stat, venue, reason⟩
  cases stat <;> cases venue
  all_goals try exact ⟨rfl, rfl, rfl, rfl, rfl, rfl⟩
  · simp only []
    repeat' split
    all_goals first | exact ⟨rfl, rfl, rfl, rfl, rfl, rfl⟩ | simp_all

/-- C1 (counterexample): two identical geocoded entries, processed from an
empty store. The non-dry-run pass inserts the first and — because the
insert is visible to the second entry's name lookup — updates the second;
the dry-run pass inserts the first (without writing) and classifies the
second as a duplicate via the cached placeholder row. Records and
counters therefore differ between the two passes, although the dry run
performs no mutation. -/
theorem dry_run_divergence_cex :
    geoReport [entC1, entC1]
        (processUpserts false [entC1, entC1] (initGeoState ⟨[], 0⟩)) ≠
      geoReport [entC1, entC1]
        (processUpserts true [entC1, entC1] (initGeoState ⟨[], 0⟩)) ∧
    (processUpserts false [entC1, entC1] (initGeoState ⟨[], 0⟩)).recs ≠
      (processUpserts true [entC1, entC1] (initGeoState ⟨[], 0⟩)).recs ∧
    (processUpserts true [entC1, entC1] (initGeoState ⟨[], 0⟩)).mutations =
      [] ∧
    (processUpserts false [entC1, entC1]
        (initGeoState ⟨[], 0⟩)).updated = 1 ∧
    (processUpserts true [entC1, entC1]
        (initGeoState ⟨[], 0⟩)).duplicates = 1 := by
  refine ⟨by decide, by decide, by decide, by decide, by decide⟩

/-- C1 (amended): with dry-run enabled neither flow issues any store
mutation and the store is left unchanged, for every batch; and for every
single-entry batch the audit records and counters are identical to a
non-dry-run pass from the same store state. (For longer batches the
outputs may diverge, because a non-dry-run pass lets later entries
observe earlier writes — see the counterexample.) -/
theorem dry_run_guarantee :
    (∀ (entries : List GeocodedEntry) (s : GeoState),
      (processUpserts true entries s).mutations = s.mutations ∧
      (processUpserts true entries s).store = s.store) ∧
    (∀ (closeGate : NormalizedOsmVenue → OsmVenueRow → Bool) (now : String)
       (entries : List OsmEntry) (s : OsmState),
      (processOsmUpserts closeGate true now entries s).mutations =
        s.mutations ∧
      (processOsmUpserts closeGate true now entries s).store = s.store) ∧
    (∀ (e : GeocodedEntry) (s : GeoState),
      geoReport [e] (processUpserts true [e] s) =
        geoReport [e] (processUpserts false [e] s) ∧
      (processUpserts true [e] s).recs = (processUpserts false [e] s).recs ∧
      (processUpserts true [e] s).confs =
        (processUpserts false [e] s).confs ∧
      (processUpserts true [e] s).dups = (processUpserts false [e] s).dups) ∧
    (∀ (closeGate : NormalizedOsmVenue → OsmVenueRow → Bool) (now : String)
       (e : OsmEntry) (s : OsmState),
      osmReport [e] (processOsmUpserts closeGate true now [e] s) =
        osmReport [e] (processOsmUpserts closeGate false now [e] s) ∧
      (processOsmUpserts closeGate true now [e] s).recs =
        (processOsmUpserts closeGate false now [e] s).recs ∧
      (processOsmUpserts closeGate true now [e] s).confs =
        (processOsmUpserts closeGate false now [e] s).confs) := by
  refine ⟨?_, ?_, ?_, ?_⟩
  · intro entries
    induction entries with
    | nil => intro s; exact ⟨rfl, rfl⟩
    | cons e rest ih =>
      intro s
      have hstep := processGeoEntry_dry_no_mutation s e
      have hrest := ih (processGeoEntry true s e)
      exact ⟨hrest.1.trans hstep.1, hrest.2.trans hstep.2⟩
  · intro closeGate now entries
    induction entries with
    | nil => intro s; exact ⟨rfl, rfl⟩
    | cons e rest ih =>
      intro s
      have hstep := processOsmEntry_dry_no_mutation closeGate now s e
      have hrest := ih (processOsmEntry closeGate true now s e)
      exact ⟨hrest.1.trans hstep.1, hrest.2.trans hstep.2⟩
  · intro e s
    have h := processGeoEntry_dry_same_observables s e
    refine ⟨?_, h.1, h.2.1, h.2.2.1⟩
    unfold geoReport
    simp only [processUpserts, List.foldl]
    rw [h.2.2.2.2.1, h.2.2.2.2.2.1, h.2.2.2.2.2.2.1, h.2.2.2.2.2.2.2.1,
      h.2.2.2.2.2.2.2.2]
  · intro closeGate now e s
    have h := processOsmEntry_dry_same_observables closeGate now s e
    refine ⟨?_, h.1, h.2.1⟩
    unfold osmReport
    simp only [processOsmUpserts, List.foldl]
    rw [h.2.2.1, h.2.2.2.1, h.2.2.2.2.1, h.2.2.2.2.2]

/-! ## C7: duplicate suppression in the geocoded flow -/

theorem isSimilarName_of_lev (a b : String)
    (ha : normalizeString a ≠ "") (hb : normalizeString b ≠ "")
    (hlev : levenshtein (normalizeString a) (normalizeString b) ≤ 2) :
    isSimilarName a b = true := by
  unfold isSimilarName
  have h0 : ((normalizeString a = "" : Bool) ||
      (normalizeString b = "" : Bool)) = false := by
    simp [ha, hb]
  simp only [h0, Bool.false_eq_true, if_false]
  split
  · rfl
  · split
    · rfl
    · simpa using hlev

theorem geo_duplicate_step (dryRun : Bool) (s : GeoState)
    (e : GeocodedEntry) (f : BanFeature)
    (h1 : e.status = .ok) (h2 : e.feature = some f)
    (h3 : findVenueByName s.store.rows e.input.nom = none)
    (hex : ∃ c ∈ cityCandidates s (buildVenuePayload e f).city,
      normalizeAddress c.adresse =
          normalizeAddress (buildVenuePayload e f).adresse ∧
        isSimilarName c.nom (buildVenuePayload e f).nom = true) :
    (processGeoEntry dryRun s e).store = s.store ∧
    (processGeoEntry dryRun s e).mutations = s.mutations ∧
    (processGeoEntry dryRun s e).duplicates = s.duplicates + 1 ∧
    ∃ r, (processGeoEntry dryRun s e).recs = s.recs ++ [r] ∧
      r.action = .duplicate := by
  have hfind : (List.find? (fun c =>
      (normalizeAddress c.adresse =
        normalizeAddress (buildVenuePayload e f).adresse : Bool) &&
        isSimilarName c.nom (buildVenuePayload e f).nom)
      (cityCandidates s (buildVenuePayload e f).city)).isSome := by
    rw [List.find?_isSome]
    obtain ⟨c, hc, hc1, hc2⟩ := hex
    exact ⟨c, hc, by simp [hc1, hc2]⟩
  obtain ⟨d, hd⟩ := Option.isSome_iff_exists.1 hfind
  rcases e with ⟨inp, feat, stat, reason⟩
  simp only at h1 h2 h3 hex hd ⊢
  subst h1
  subst h2
  unfold processGeoEntry
  simp only [h3, hd]
  refine ⟨?_, ?_, ?_, ?_⟩
  · first | trivial | rfl
  · first | trivial | rfl
  · first | trivial | rfl
  · exact ⟨_, rfl, rfl⟩

theorem geo_insert_cache (dryRun : Bool) (s : GeoState) (e : GeocodedEntry)
    (f : BanFeature)
    (h1 : e.status = .ok) (h2 : e.feature = some f)
    (h3 : findVenueByName s.store.rows e.input.nom = none)
    (hnodup : ∀ c ∈ cityCandidates s (buildVenuePayload e f).city,
      ¬(normalizeAddress c.adresse =
          normalizeAddress (buildVenuePayload e f).adresse ∧
        isSimilarName c.nom (buildVenuePayload e f).nom = true)) :
    ∃ rows, mapGet (processGeoEntry dryRun s e).cache
        (buildVenuePayload e f).city =
      some (rows ++
        [{ id := "temp-" ++ toString s.tempCounter
           nom := (buildVenuePayload e f).nom
           adresse := (buildVenuePayload e f).adresse
           city := (buildVenuePayload e f).city
           latitude := (buildVenuePayload e f).latitude
           longitude := (buildVenuePayload e f).longitude
           barbars := some (buildVenuePayload e f).barbars }]) := by
  have hfindnone : (List.find? (fun c =>
      (normalizeAddress c.adresse =
        normalizeAddress (buildVenuePayload e f).adresse : Bool) &&
        isSimilarName c.nom (buildVenuePayload e f).nom)
      (cityCandidates s (buildVenuePayload e f).city)) = none := by
    rw [List.find?_eq_none]
    intro x hx
    have := hnodup x hx
    simp only [Bool.and_eq_true, decide_eq_true_eq]
    intro hcon
    exact this ⟨hcon.1, hcon.2⟩
  rcases e with ⟨inp, feat, stat, reason⟩
  simp only at h1 h2 h3 hnodup hfindnone ⊢
  subst h1
  subst h2
  unfold processGeoEntry
  simp only [h3, hfindnone]
  rcases hc : mapGet s.cache
      (buildVenuePayload
        ⟨inp, some f, GeocodeStatus.ok, reason⟩ f).city with _ | rows0
  · simp only [cityCandidates, hc, mapGet_mapSet_self]
    exact ⟨_, rfl⟩
  · simp only [cityCandidates, hc, mapGet_mapSet_self]
    exact ⟨rows0, rfl⟩

/-- C7: when an incoming candidate has no case-insensitive exact name
match in the store but some row of the candidate's city (as served by the
per-city cache) has an equal normalized address and a similar name, the
entry is classified Duplicate and no insert or update is issued; and in
particular, of two same-city batch entries with identical normalized
addresses, non-empty normalized names within edit distance 2, and no
exact name match, the second is classified Duplicate even though the
first was inserted earlier in the same run. -/
theorem geo_duplicate_suppression :
    (∀ (dryRun : Bool) (s : GeoState) (e : GeocodedEntry) (f : BanFeature),
      e.status = .ok → e.feature = some f →
      findVenueByName s.store.rows e.input.nom = none →
      (∃ c ∈ cityCandidates s (buildVenuePayload e f).city,
        normalizeAddress c.adresse =
            normalizeAddress (buildVenuePayload e f).adresse ∧
          isSimilarName c.nom (buildVenuePayload e f).nom = true) →
      (processGeoEntry dryRun s e).store = s.store ∧
      (processGeoEntry dryRun s e).mutations = s.mutations ∧
      (processGeoEntry dryRun s e).duplicates = s.duplicates + 1 ∧
      ∃ r, (processGeoEntry dryRun s e).recs = s.recs ++ [r] ∧
        r.action = .duplicate) ∧
    (∀ (dryRun : Bool) (s : GeoState) (e1 e2 : GeocodedEntry)
       (f1 f2 : BanFeature),
      e1.status = .ok → e1.feature = some f1 →
      e2.status = .ok → e2.feature = some f2 →
      findVenueByName s.store.rows e1.input.nom = none →
      (∀ c ∈ cityCandidates s (buildVenuePayload e1 f1).city,
        ¬(normalizeAddress c.adresse =
            normalizeAddress (buildVenuePayload e1 f1).adresse ∧
          isSimilarName c.nom (buildVenuePayload e1 f1).nom = true)) →
      (buildVenuePayload e2 f2).city = (buildVenuePayload e1 f1).city →
      findVenueByName (processGeoEntry dryRun s e1).store.rows
        e2.input.nom = none →
      normalizeAddress (buildVenuePayload e2 f2).adresse =
        normalizeAddress (buildVenuePayload e1 f1).adresse →
      normalizeString (buildVenuePayload e1 f1).nom ≠ "" →
      normalizeString (buildVenuePayload e2 f2).nom ≠ "" →
      levenshtein (normalizeString (buildVenuePayload e1 f1).nom)
        (normalizeString (buildVenuePayload e2 f2).nom) ≤ 2 →
      (processGeoEntry dryRun (processGeoEntry dryRun s e1) e2).store =
        (processGeoEntry dryRun s e1).store ∧
      (processGeoEntry dryRun (processGeoEntry dryRun s e1) e2).mutations =
        (processGeoEntry dryRun s e1).mutations ∧
      (processGeoEntry dryRun (processGeoEntry dryRun s e1) e2).duplicates =
        (processGeoEntry dryRun s e1).duplicates + 1 ∧
      ∃ r, (processGeoEntry dryRun (processGeoEntry dryRun s e1) e2).recs =
        (processGeoEntry dryRun s e1).recs ++ [r] ∧
        r.action = .duplicate) := by
  constructor
  · exact fun dryRun s e f h1 h2 h3 hex =>
      geo_duplicate_step dryRun s e f h1 h2 h3 hex
  · intro dryRun s e1 e2 f1 f2 h1a h1b h2a h2b hfind1 hnodup hcity hfind2
      haddr hn1 hn2 hlev
    obtain ⟨rows, hrows⟩ :=
      geo_insert_cache dryRun s e1 f1 h1a h1b hfind1 hnodup
    apply geo_duplicate_step dryRun (processGeoEntry dryRun s e1) e2 f2
      h2a h2b hfind2
    refine ⟨{ id := "temp-" ++ toString s.tempCounter
              nom := (buildVenuePayload e1 f1).nom
              adresse := (buildVenuePayload e1 f1).adresse
              city := (buildVenuePayload e1 f1).city
              latitude := (buildVenuePayload e1 f1).latitude
              longitude := (buildVenuePayload e1 f1).longitude
              barbars := some (buildVenuePayload e1 f1).barbars }, ?_, ?_, ?_⟩
    · unfold cityCandidates
      rw [hcity, hrows]
      simp
    · exact haddr.symm
    · exact isSimilarName_of_lev _ _ hn1 hn2 hlev

/-- Witness for C7: both parts applied at concrete entries ("Bar-A" then
"Bar A", same address and city), discharging every hypothesis by
evaluation. -/
theorem geo_duplicate_suppression_witness :
    ((processGeoEntry false (initGeoState ⟨[rowC7], 1⟩) entC7b).store =
        (initGeoState ⟨[rowC7], 1⟩).store ∧
      (processGeoEntry false (initGeoState ⟨[rowC7], 1⟩) entC7b).mutations =
        (initGeoState ⟨[rowC7], 1⟩).mutations ∧
      (processGeoEntry false (initGeoState ⟨[rowC7], 1⟩) entC7b).duplicates =
        (initGeoState ⟨[rowC7], 1⟩).duplicates + 1 ∧
      ∃ r, (processGeoEntry false (initGeoState ⟨[rowC7], 1⟩) entC7b).recs =
        (initGeoState ⟨[rowC7], 1⟩).recs ++ [r] ∧
        r.action = .duplicate) ∧
    ((processGeoEntry false
          (processGeoEntry false (initGeoState ⟨[], 0⟩) entC7a) entC7b).store =
        (processGeoEntry false (initGeoState ⟨[], 0⟩) entC7a).store ∧
      (processGeoEntry false
          (processGeoEntry false (initGeoState ⟨[], 0⟩) entC7a)
          entC7b).mutations =
        (processGeoEntry false (initGeoState ⟨[], 0⟩) entC7a).mutations ∧
      (processGeoEntry false
          (processGeoEntry false (initGeoState ⟨[], 0⟩) entC7a)
          entC7b).duplicates =
        (processGeoEntry false (initGeoState ⟨[], 0⟩) entC7a).duplicates + 1 ∧
      ∃ r, (processGeoEntry false
          (processGeoEntry false (initGeoState ⟨[], 0⟩) entC7a) entC7b).recs =
        (processGeoEntry false (initGeoState ⟨[], 0⟩) entC7a).recs ++ [r] ∧
        r.action = .duplicate) :=
  ⟨geo_duplicate_suppression.1 false (initGeoState ⟨[rowC7], 1⟩) entC7b
      featC1 (by decide) (by decide) (by decide)
      ⟨rowC7, by decide, by decide, by decide⟩,
    geo_duplicate_suppression.2 false (initGeoState ⟨[], 0⟩) entC7a entC7b
      featC1 featC1 (by decide) (by decide) (by decide) (by decide)
      (by decide) (by decide) (by decide) (by decide) (by decide)
      (by decide) (by decide) (by decide)⟩

/-! ## C8: the name-match branch of the OSM flow -/

/-- C8: in the OSM flow, for an entry whose venue has no existing row
matching its (element-kind, id) identity but at least one case-insensitive
exact name match, and for any boolean proximity gate agreeing with the 200
m haversine predicate on those matches: the matches are filtered to the
rows passing both address similarity and the proximity gate; exactly one
survivor yields an Update of that row whose payload stamps the OSM
identity and metadata, zero survivors yield a Conflict with reason
name_conflict_address_mismatch, and more than one survivor yields a
Conflict with reason multiple_matches. -/
theorem osm_name_match_cases
    (closeGate : NormalizedOsmVenue → OsmVenueRow → Bool)
    (nowIso : String) (s : OsmState) (e : OsmEntry) (v : NormalizedOsmVenue)
    (h1 : e.status = .ok) (h2 : e.venue = some v)
    (h3 : findVenueByOsm s.store.rows v.osm_type v.osm_id = none)
    (h4 : findVenuesByName s.store.rows (buildOsmPayload v nowIso).nom ≠ [])
    (hgate : ∀ c ∈ findVenuesByName s.store.rows (buildOsmPayload v nowIso).nom,
      (closeGate v c = true ↔ isCloseCoordinatesR v c)) :
    (∀ c, c ∈ osmMatching closeGate s v nowIso ↔
      (c ∈ findVenuesByName s.store.rows (buildOsmPayload v nowIso).nom ∧
        isSimilarAddress c.adresse (buildOsmPayload v nowIso).adresse
          (osmAddressContext c (buildOsmPayload v nowIso) v) = true ∧
        isCloseCoordinatesR v c)) ∧
    ((osmMatching closeGate s v nowIso).length = 1 →
      ∃ existing, osmMatching closeGate s v nowIso = [existing] ∧
        (osmUpdateOfPayload (buildOsmPayload v nowIso) existing.tags).osm_type
            = some v.osm_type ∧
        (osmUpdateOfPayload (buildOsmPayload v nowIso) existing.tags).osm_id
            = some v.osm_id ∧
        processOsmEntry closeGate false nowIso s e =
          { s with
            store := { s.store with
              rows := applyOsmUpdate s.store.rows existing.id
                (osmUpdateOfPayload (buildOsmPayload v nowIso)
                  existing.tags) }
            mutations := s.mutations ++
              [.update existing.id
                (osmUpdateOfPayload (buildOsmPayload v nowIso) existing.tags)]
            updated := s.updated + 1
            recs := s.recs ++
              [{ action := .update, nom := (buildOsmPayload v nowIso).nom
                 adresse := (buildOsmPayload v nowIso).adresse
                 city := (buildOsmPayload v nowIso).city
                 latitude := some (buildOsmPayload v nowIso).latitude
                 longitude := some (buildOsmPayload v nowIso).longitude
                 reason := some "name_match_address_match" }] }) ∧
    ((osmMatching closeGate s v nowIso).length = 0 →
      ∃ tgt, (findVenuesByName s.store.rows
          (buildOsmPayload v nowIso).nom).head? = some tgt ∧
        processOsmEntry closeGate false nowIso s e =
          { s with
            conflicts := s.conflicts + 1
            confs := s.confs ++
              [{ nom := (buildOsmPayload v nowIso).nom
                 existingAdresse := tgt.adresse
                 existingCity := tgt.city
                 newAdresse := (buildOsmPayload v nowIso).adresse
                 newCity := (buildOsmPayload v nowIso).city
                 reason := "name_conflict_address_mismatch" }]
            recs := s.recs ++
              [{ action := .conflict, nom := (buildOsmPayload v nowIso).nom
                 adresse := (buildOsmPayload v nowIso).adresse
                 city := (buildOsmPayload v nowIso).city
                 latitude := some (buildOsmPayload v nowIso).latitude
                 longitude := some (buildOsmPayload v nowIso).longitude
                 reason := some "name_conflict_address_mismatch" }] }) ∧
    (1 < (osmMatching closeGate s v nowIso).length →
      ∃ tgt, (osmMatching closeGate s v nowIso).head? = some tgt ∧
        processOsmEntry closeGate false nowIso s e =
          { s with
            conflicts := s.conflicts + 1
            confs := s.confs ++
              [{ nom := (buildOsmPayload v nowIso).nom
                 existingAdresse := tgt.adresse
                 existingCity := tgt.city
                 newAdresse := (buildOsmPayload v nowIso).adresse
                 newCity := (buildOsmPayload v nowIso).city
                 reason := "multiple_matches" }]
            recs := s.recs ++
              [{ action := .conflict, nom := (buildOsmPayload v nowIso).nom
                 adresse := (buildOsmPayload v nowIso).adresse
                 city := (buildOsmPayload v nowIso).city
                 latitude := some (buildOsmPayload v nowIso).latitude
                 longitude := some (buildOsmPayload v nowIso).longitude
                 reason := some "multiple_matches" }] }) := by
  rcases e with ⟨stat, ven, rsn⟩
  simp only at h1 h2
  subst h1
  subst h2
  refine ⟨?_, ?_, ?_, ?_⟩
  · intro c
    simp only [osmMatching, List.mem_filter, Bool.and_eq_true]
    constructor
    · rintro ⟨hmem, hsim, hclose⟩
      exact ⟨hmem, hsim, (hgate c hmem).1 hclose⟩
    · rintro ⟨hmem, hsim, hclose⟩
      exact ⟨hmem, hsim, (hgate c hmem).2 hclose⟩
  · intro hm1
    simp only [osmMatching] at hm1
    obtain ⟨a, ha⟩ := List.length_eq_one.1 hm1
    have ha2 : osmMatching closeGate s v nowIso = [a] := by
      simp only [osmMatching]; exact ha
    unfold processOsmEntry
    simp only [h3]
    rw [if_pos (List.length_pos.mpr h4), ha]
    rw [if_neg (by simp)]
    refine ⟨a, ha2, rfl, rfl, ?_⟩
    simp
  · intro hm0
    simp only [osmMatching] at hm0
    rw [List.length_eq_zero] at hm0
    have hhead : ∃ tgt, (findVenuesByName s.store.rows
        (buildOsmPayload v nowIso).nom).head? = some tgt := by
      cases hl : (findVenuesByName s.store.rows
          (buildOsmPayload v nowIso).nom).head? with
      | none => exact absurd (List.head?_eq_none_iff.1 hl) h4
      | some t => exact ⟨t, rfl⟩
    obtain ⟨tgt, ht⟩ := hhead
    unfold processOsmEntry
    simp only [h3]
    rw [if_pos (List.length_pos.mpr h4), hm0]
    rw [if_pos (by simp)]
    refine ⟨tgt, ht, ?_⟩
    simp [ht, Option.orElse, Option.get!]
  · intro hm2
    simp only [osmMatching] at hm2
    have hnil : (findVenuesByName s.store.rows
        (buildOsmPayload v nowIso).nom).filter
        (fun candidate =>
          isSimilarAddress candidate.adresse (buildOsmPayload v nowIso).adresse
              (osmAddressContext candidate (buildOsmPayload v nowIso) v) &&
            closeGate v candidate) ≠ [] := by
      intro h0
      rw [h0] at hm2
      simp at hm2
    have hhead : ∃ tgt, ((findVenuesByName s.store.rows
        (buildOsmPayload v nowIso).nom).filter
        (fun candidate =>
          isSimilarAddress candidate.adresse (buildOsmPayload v nowIso).adresse
              (osmAddressContext candidate (buildOsmPayload v nowIso) v) &&
            closeGate v candidate)).head? = some tgt := by
      cases hl : ((findVenuesByName s.store.rows
          (buildOsmPayload v nowIso).nom).filter
          (fun candidate =>
            isSimilarAddress candidate.adresse
                (buildOsmPayload v nowIso).adresse
                (osmAddressContext candidate (buildOsmPayload v nowIso) v) &&
              closeGate v candidate)).head? with
      | none => exact absurd (List.head?_eq_none_iff.1 hl) hnil
      | some t => exact ⟨t, rfl⟩
    obtain ⟨tgt, ht⟩ := hhead
    have ht2 : (osmMatching closeGate s v nowIso).head? = some tgt := by
      simp only [osmMatching]; exact ht
    unfold processOsmEntry
    simp only [h3]
    rw [if_pos (List.length_pos.mpr h4)]
    rw [if_pos (by omega)]
    rw [if_neg (by omega)]
    refine ⟨tgt, ht2, ?_⟩
    simp [ht, Option.orElse, Option.get!]

/-- The witness venue and row share exact coordinates, so the real-valued
proximity predicate holds between them. -/
theorem isClose_venueC8_rowC8 : isCloseCoordinatesR venueC8 rowC8 := by
  unfold isCloseCoordinatesR
  simp only [venueC8, rowC8]
  norm_num [Real.sin_zero, Real.sqrt_zero, Real.arcsin_zero, Real.cos_zero]

/-- Witness for C8: the single-survivor case applied at `venueC8` against
the one-row store `stateC8`, with a constant-true gate shown to agree with
the haversine predicate on the single name match. -/
theorem osm_name_match_cases_witness :
    ∃ existing,
      osmMatching (fun _ _ => true) stateC8 venueC8 "now" = [existing] ∧
      (osmUpdateOfPayload (buildOsmPayload venueC8 "now")
          existing.tags).osm_type = some venueC8.osm_type ∧
      (osmUpdateOfPayload (buildOsmPayload venueC8 "now")
          existing.tags).osm_id = some venueC8.osm_id ∧
      processOsmEntry (fun _ _ => true) false "now" stateC8 entryC8 =
        { stateC8 with
          store := { stateC8.store with
            rows := applyOsmUpdate stateC8.store.rows existing.id
              (osmUpdateOfPayload (buildOsmPayload venueC8 "now")
                existing.tags) }
          mutations := stateC8.mutations ++
            [.update existing.id
              (osmUpdateOfPayload (buildOsmPayload venueC8 "now")
                existing.tags)]
          updated := stateC8.updated + 1
          recs := stateC8.recs ++
            [{ action := .update, nom := (buildOsmPayload venueC8 "now").nom
               adresse := (buildOsmPayload venueC8 "now").adresse
               city := (buildOsmPayload venueC8 "now").city
               latitude := some (buildOsmPayload venueC8 "now").latitude
               longitude := some (buildOsmPayload venueC8 "now").longitude
               reason := some "name_match_address_match" }] } :=
  (osm_name_match_cases (fun _ _ => true) "now" stateC8 entryC8 venueC8
    (by decide) (by decide) (by decide) (by decide)
    (by
      intro c hc
      have hl : findVenuesByName stateC8.store.rows
          (buildOsmPayload venueC8 "now").nom = [rowC8] := by decide
      rw [hl] at hc
      have hcr : c = rowC8 := List.mem_singleton.1 hc
      subst hcr
      exact ⟨fun _ => isClose_venueC8_rowC8, fun _ => rfl⟩)).2.1 (by decide)

end Cesoir
